import Mathlib

/-!
Verification development for the football trend/anomaly detection engine
(`lib/AnomalyDetection.js`, class `FootballAnomalyDetector`).

The JavaScript code computes with IEEE-754 double values.  The embedding
models those values exactly: a `JSNum` is either `NaN`, `+Infinity`,
`-Infinity`, or a real number, and the arithmetic operations follow the
IEEE special-value rules (rounding, overflow and negative zero are not
modelled; all flows in the claims stay well inside exact arithmetic).
-/

open Classical

/-- A JavaScript number: `NaN`, an infinity, or a (finite) real value. -/
inductive JSNum where
  | nan : JSNum
  | inf : JSNum
  | ninf : JSNum
  | num (x : ℝ) : JSNum

namespace JSNum

/-- JS `+`. -/
noncomputable def add : JSNum → JSNum → JSNum
  | nan, _ => nan
  | _, nan => nan
  | inf, ninf => nan
  | ninf, inf => nan
  | inf, _ => inf
  | _, inf => inf
  | ninf, _ => ninf
  | _, ninf => ninf
  | num a, num b => num (a + b)

/-- JS unary `-`. -/
noncomputable def neg : JSNum → JSNum
  | nan => nan
  | inf => ninf
  | ninf => inf
  | num a => num (-a)

/-- JS binary `-`. -/
noncomputable def sub (a b : JSNum) : JSNum := add a (neg b)

/-- JS `*` (`0 * Infinity = NaN`). -/
noncomputable def mul : JSNum → JSNum → JSNum
  | nan, _ => nan
  | _, nan => nan
  | inf, inf => inf
  | inf, ninf => ninf
  | ninf, inf => ninf
  | ninf, ninf => inf
  | inf, num b => if b = 0 then nan else if 0 < b then inf else ninf
  | num a, inf => if a = 0 then nan else if 0 < a then inf else ninf
  | ninf, num b => if b = 0 then nan else if 0 < b then ninf else inf
  | num a, ninf => if a = 0 then nan else if 0 < a then ninf else inf
  | num a, num b => num (a * b)

/-- JS `/` (`0/0 = NaN`, `x/0 = ±Infinity` for `x ≠ 0`; negative zero is
not modelled, so a nonzero value divided by zero gets the sign of the
numerator). -/
noncomputable def div : JSNum → JSNum → JSNum
  | nan, _ => nan
  | _, nan => nan
  | inf, inf => nan
  | inf, ninf => nan
  | ninf, inf => nan
  | ninf, ninf => nan
  | inf, num b => if 0 ≤ b then inf else ninf
  | ninf, num b => if 0 ≤ b then ninf else inf
  | num _, inf => num 0
  | num _, ninf => num 0
  | num a, num b =>
      if b = 0 then (if a = 0 then nan else if 0 < a then inf else ninf)
      else num (a / b)

/-- JS `Math.abs`. -/
noncomputable def abs : JSNum → JSNum
  | nan => nan
  | inf => inf
  | ninf => inf
  | num a => num |a|

/-- JS `Math.sqrt` (negative argument gives `NaN`). -/
noncomputable def sqrt : JSNum → JSNum
  | nan => nan
  | inf => inf
  | ninf => nan
  | num a => if a < 0 then nan else num (Real.sqrt a)

/-- JS `Math.pow(x, 2)`, written as a square. -/
noncomputable def pow2 (a : JSNum) : JSNum := mul a a

/-- JS `<` (any comparison involving `NaN` is false). -/
def lt : JSNum → JSNum → Prop
  | nan, _ => False
  | _, nan => False
  | inf, _ => False
  | ninf, inf => True
  | ninf, ninf => False
  | ninf, num _ => True
  | num _, inf => True
  | num _, ninf => False
  | num a, num b => a < b

/-- JS `>`. -/
def gt (a b : JSNum) : Prop := lt b a

@[simp] theorem add_num_num (a b : ℝ) : add (num a) (num b) = num (a + b) := rfl

@[simp] theorem neg_num (a : ℝ) : neg (num a) = num (-a) := rfl

@[simp] theorem sub_num_num (a b : ℝ) : sub (num a) (num b) = num (a - b) := by
  simp [sub, add, neg, sub_eq_add_neg]

@[simp] theorem mul_num_num (a b : ℝ) : mul (num a) (num b) = num (a * b) := rfl

@[simp] theorem abs_num (a : ℝ) : abs (num a) = num |a| := rfl

@[simp] theorem abs_nan : abs nan = nan := rfl

@[simp] theorem pow2_num (a : ℝ) : pow2 (num a) = num (a * a) := rfl

theorem div_num_num_of_ne (a : ℝ) {b : ℝ} (hb : b ≠ 0) :
    div (num a) (num b) = num (a / b) := by
  simp [div, hb]

@[simp] theorem div_num_zero_zero : div (num 0) (num 0) = nan := by
  simp [div]

@[simp] theorem sqrt_num_nonneg {a : ℝ} (ha : 0 ≤ a) :
    sqrt (num a) = num (Real.sqrt a) := by
  simp [sqrt, not_lt.mpr ha]

@[simp] theorem sub_nan_left (b : JSNum) : sub nan b = nan := by
  cases b <;> rfl

@[simp] theorem div_nan_left (b : JSNum) : div nan b = nan := by
  cases b <;> rfl

@[simp] theorem abs_sub_num_nan : abs (sub (num 0) nan) = nan := rfl

@[simp] theorem lt_num_num (a b : ℝ) : lt (num a) (num b) ↔ a < b := Iff.rfl

@[simp] theorem gt_num_num (a b : ℝ) : gt (num a) (num b) ↔ b < a := Iff.rfl

@[simp] theorem not_gt_nan (b : JSNum) : ¬ gt nan b := by
  cases b <;> simp [gt, lt]

@[simp] theorem not_lt_nan_left (b : JSNum) : ¬ lt nan b := by
  simp [lt]

@[simp] theorem not_lt_nan_right (a : JSNum) : ¬ lt a nan := by
  cases a <;> simp [lt]

end JSNum

/-- JS array indexing `l[i]`: out-of-bounds access yields `undefined`,
which behaves as `NaN` in all the arithmetic positions where it is used
here, so it is modelled as `NaN`. -/
def jsIndex (l : List JSNum) (i : ℕ) : JSNum := l.getD i JSNum.nan

/-- JS `l.slice(s, e)`. -/
def jsSlice (l : List JSNum) (s e : ℕ) : List JSNum := (l.take e).drop s

/-- JS `arr.reduce((a, b) => a + b, 0)`. -/
noncomputable def jsSum (l : List JSNum) : JSNum :=
  l.foldl JSNum.add (JSNum.num 0)

/-- JS `x.reduce((sum, xi, i) => sum + xi * y[i], 0)`. -/
noncomputable def jsSumXY (x y : List JSNum) : JSNum :=
  x.enum.foldl (fun s p => JSNum.add s (JSNum.mul p.2 (jsIndex y p.1))) (JSNum.num 0)

/-- JS `x.reduce((sum, xi) => sum + xi * xi, 0)`. -/
noncomputable def jsSumSq (x : List JSNum) : JSNum :=
  x.foldl (fun s xi => JSNum.add s (JSNum.mul xi xi)) (JSNum.num 0)

/-- The three constructor parameters of `FootballAnomalyDetector`
(`windowSize = 6`, `sensitivity = 2.0`, `minChangeMagnitude = 0.3`).
The window size is used only as an element count, so it is a `ℕ`. -/
structure Detector where
  windowSize : ℕ
  sensitivity : ℝ
  minChangeMagnitude : ℝ

/-- `new FootballAnomalyDetector()` with the default parameters. -/
noncomputable def defaultDetector : Detector :=
  { windowSize := 6, sensitivity := 2, minChangeMagnitude := 0.3 }

namespace Detector

/-- `mean(arr)`. -/
noncomputable def mean (arr : List JSNum) : JSNum :=
  JSNum.div (jsSum arr) (JSNum.num arr.length)

/-- `standardDeviation(arr)` (population standard deviation). -/
noncomputable def standardDeviation (arr : List JSNum) : JSNum :=
  let avg := mean arr
  let squareDiffs := arr.map (fun val => JSNum.pow2 (JSNum.sub val avg))
  JSNum.sqrt (mean squareDiffs)

/-- `calculateZScores(data)`. -/
noncomputable def calculateZScores (data : List JSNum) : List JSNum :=
  let avg := mean data
  let std := standardDeviation data
  data.map (fun val => JSNum.abs (JSNum.div (JSNum.sub val avg) std))

/-- `linearRegression(x, y)`. -/
noncomputable def linearRegression (x y : List JSNum) : JSNum :=
  let n := JSNum.num x.length
  let sumX := jsSum x
  let sumY := jsSum y
  let sumXY := jsSumXY x y
  let sumXX := jsSumSq x
  JSNum.div (JSNum.sub (JSNum.mul n sumXY) (JSNum.mul sumX sumY))
    (JSNum.sub (JSNum.mul n sumXX) (JSNum.mul sumX sumX))

/-- `calculateRollingMeans(data)`; `max(0, i - windowSize + 1)` is the
truncated subtraction `i + 1 - windowSize`. -/
noncomputable def calculateRollingMeans (D : Detector) (data : List JSNum) : List JSNum :=
  (List.range data.length).map (fun i =>
    mean (jsSlice data (i + 1 - D.windowSize) (i + 1)))

/-- `calculateRollingSlopes(data, timePeriods)`. -/
noncomputable def calculateRollingSlopes (D : Detector) (data timePeriods : List JSNum) :
    List JSNum :=
  (List.range data.length).map (fun i =>
    let startIdx := i + 1 - D.windowSize
    let windowData := jsSlice data startIdx (i + 1)
    let windowTime := jsSlice timePeriods startIdx (i + 1)
    if 1 < windowData.length then linearRegression windowTime windowData
    else JSNum.num 0)

/-- `detectSlopeChanges(rollingSlopes)`: the loop runs `i = 1 .. len-1`
and pushes `i` when a sign change or a magnitude change is seen. -/
noncomputable def detectSlopeChanges (D : Detector) (rollingSlopes : List JSNum) :
    List ℕ :=
  if rollingSlopes.length < 2 then []
  else
    (List.range' 1 (rollingSlopes.length - 1)).filter (fun i =>
      let slopeDiff := JSNum.abs (JSNum.sub (jsIndex rollingSlopes i)
        (jsIndex rollingSlopes (i - 1)))
      let signChange := JSNum.lt (JSNum.mul (jsIndex rollingSlopes i)
        (jsIndex rollingSlopes (i - 1))) (JSNum.num 0)
      let magnitudeChange := JSNum.gt slopeDiff (JSNum.num D.minChangeMagnitude)
      decide (signChange ∨ magnitudeChange))

/-- `data.slice(1).map((val, i) => val - data[i])`: the first differences. -/
noncomputable def differencesOf (data : List JSNum) : List JSNum :=
  List.zipWith JSNum.sub (data.drop 1) data

/-- `detectSuddenChanges(data)`. -/
noncomputable def detectSuddenChanges (D : Detector) (data : List JSNum) : List ℕ :=
  if data.length < 2 then []
  else
    let differences := differencesOf data
    let diffStd := standardDeviation differences
    let threshold := JSNum.mul diffStd (JSNum.num D.sensitivity)
    (differences.enum.filter (fun p =>
      decide (JSNum.gt (JSNum.abs p.2) threshold))).map (fun p => p.1 + 1)

end Detector

/-- One entry produced by `classifyAnomalies`. -/
structure AnomalyDetail where
  index : ℕ
  timePeriod : JSNum
  value : JSNum
  types : List String
  description : String

/-- The object returned by `detectTrendChanges` on success. -/
structure DetectionSuccess where
  statName : String
  data : List JSNum
  timePeriods : List JSNum
  anomalies : List ℕ
  anomalyDetails : List AnomalyDetail
  rollingMeans : List JSNum
  rollingSlopes : List JSNum
  zScores : List JSNum
  summary : String

/-- `detectTrendChanges` returns one of two object shapes: the
insufficient-data object `\x7b error, dataLength \x7d` or the full result. -/
inductive DetectionResult where
  | insufficient (error : String) (dataLength : ℕ) : DetectionResult
  | success (r : DetectionSuccess) : DetectionResult

/-- Whether the result is the insufficient-data object. -/
def DetectionResult.isInsufficient : DetectionResult → Bool
  | .insufficient _ _ => true
  | .success _ => false

/-- The `anomalies` field (empty for the insufficient-data object, which
carries no such field). -/
def DetectionResult.anomaliesOf : DetectionResult → List ℕ
  | .insufficient _ _ => []
  | .success r => r.anomalies

/-- The `anomalyDetails` field (empty for the insufficient-data object). -/
def DetectionResult.anomalyDetailsOf : DetectionResult → List AnomalyDetail
  | .insufficient _ _ => []
  | .success r => r.anomalyDetails

/-- The `zScores` field (empty for the insufficient-data object). -/
def DetectionResult.zScoresOf : DetectionResult → List JSNum
  | .insufficient _ _ => []
  | .success r => r.zScores

/-- `[...new Set(list)]`: deduplication keeping first occurrences in
insertion order. -/
def jsSetDedup : List ℕ → List ℕ
  | [] => []
  | a :: l => a :: jsSetDedup (l.filter (fun b => decide (b ≠ a)))
termination_by l => l.length
decreasing_by
  simp only [List.length_cons]
  exact Nat.lt_succ_of_le (List.length_filter_le _ _)

/-- Lexicographic comparison of character lists (the order JS string
comparison induces on pure-ASCII decimal strings). -/
def charListLe : List Char → List Char → Bool
  | [], _ => true
  | _ :: _, [] => false
  | a :: as, b :: bs => if a < b then true else if b < a then false else charListLe as bs

theorem charListLe_total : ∀ x y, charListLe x y = true ∨ charListLe y x = true := by
  intro x
  induction x with
  | nil => intro y; left; rfl
  | cons a as ih =>
      intro y
      cases y with
      | nil => right; rfl
      | cons b bs =>
          by_cases hab : a < b
          · left; simp [charListLe, hab]
          · by_cases hba : b < a
            · right; simp [charListLe, hba]
            · rcases ih bs with h | h
              · left; simp [charListLe, hab, hba, h]
              · right; simp [charListLe, hab, hba, h]

theorem charListLe_trans : ∀ x y z, charListLe x y = true → charListLe y z = true →
    charListLe x z = true := by
  intro x
  induction x with
  | nil => intro y z _ _; rfl
  | cons a as ih =>
      intro y z hxy hyz
      cases y with
      | nil => simp [charListLe] at hxy
      | cons b bs =>
          cases z with
          | nil => simp [charListLe] at hyz
          | cons c cs =>
              simp only [charListLe] at hxy hyz ⊢
              by_cases hab : a < b
              · by_cases hbc : b < c
                · simp [lt_trans hab hbc]
                · by_cases hcb : c < b
                  · simp [hbc, hcb] at hyz
                  · have hbceq : b = c := le_antisymm (not_lt.mp hcb) (not_lt.mp hbc)
                    simp [hbceq ▸ hab]
              · by_cases hba : b < a
                · simp [hab, hba] at hxy
                · have habeq : a = b := le_antisymm (not_lt.mp hba) (not_lt.mp hab)
                  subst habeq
                  by_cases hac : a < c
                  · simp [hac]
                  · by_cases hca : c < a
                    · simp [hac, hca] at hyz
                    · simp only [hab, hba, hac, hca, if_neg, if_false]
                      simp only [hab, hba, if_neg, if_false] at hxy
                      simp only [hac, hca, if_neg, if_false] at hyz
                      simp [ih bs cs hxy hyz]

/-- The comparison used by JS `Array.prototype.sort()` with no
comparator: elements are compared as strings — here, lexicographic
comparison of the decimal representations of the indices. -/
def jsStrLe (a b : ℕ) : Prop := charListLe (Nat.repr a).data (Nat.repr b).data = true

instance : DecidableRel jsStrLe := fun _ _ =>
  inferInstanceAs (Decidable (_ = true))

instance : IsTotal ℕ jsStrLe :=
  ⟨fun a b => charListLe_total (Nat.repr a).data (Nat.repr b).data⟩

instance : IsTrans ℕ jsStrLe := ⟨fun _ _ _ h h' => charListLe_trans _ _ _ h h'⟩

/-- JS `list.sort()` (default comparator: string comparison). -/
def jsSortNat (l : List ℕ) : List ℕ := l.insertionSort jsStrLe

/-- Zero-pad a decimal string on the left to the given width. -/
def padZeros (s : String) (w : ℕ) : String :=
  String.mk (List.replicate (w - s.length) '0') ++ s

/-- JS `x.toFixed(d)` for finite values: round to `d` decimal places.
(Rounding of exact ties differs from IEEE in corner cases; no claim
inspects a formatted number.) -/
noncomputable def jsToFixed (v : JSNum) (d : ℕ) : String :=
  match v with
  | JSNum.nan => "NaN"
  | JSNum.inf => "Infinity"
  | JSNum.ninf => "-Infinity"
  | JSNum.num x =>
      let m : ℤ := round (x * (10 : ℝ) ^ d)
      let sign := if m < 0 then "-" else ""
      let n := m.natAbs
      if d = 0 then sign ++ Nat.repr n
      else sign ++ Nat.repr (n / 10 ^ d) ++ "." ++ padZeros (Nat.repr (n % 10 ^ d)) d

/-- JS number-to-string coercion (template literals).  Integral values
print exactly; other finite values are approximated with six decimal
places (the JS shortest-roundtrip rule is not modelled; no claim
inspects such a string). -/
noncomputable def jsNumToString (v : JSNum) : String :=
  match v with
  | JSNum.nan => "NaN"
  | JSNum.inf => "Infinity"
  | JSNum.ninf => "-Infinity"
  | JSNum.num x => if (⌊x⌋ : ℝ) = x then Int.repr ⌊x⌋ else jsToFixed (JSNum.num x) 6

/-- Whether `pat` occurs as a contiguous run inside `l`. -/
def charsInfix (pat : List Char) : List Char → Bool
  | [] => pat.isEmpty
  | c :: rest => List.isPrefixOf pat (c :: rest) || charsInfix pat rest

/-- JS `s.includes(pat)`. -/
def strIncludes (s pat : String) : Bool := charsInfix pat.toList s.toList

namespace Detector

/-- `classifyAnomalies(data, rollingSlopes, anomalyIndices, timePeriods,
zScores)`: build a detail per index (skipping out-of-range indices via
the `null` / `.filter(Boolean)` path), re-evaluating the three detector
criteria to assemble `types` and `descriptions`. -/
noncomputable def classifyAnomalies (D : Detector) (data rollingSlopes : List JSNum)
    (anomalyIndices : List ℕ) (timePeriods zScores : List JSNum) :
    List AnomalyDetail :=
  (anomalyIndices.map (fun idx =>
    if data.length ≤ idx then none
    else
      let statHit := JSNum.gt (jsIndex zScores idx) (JSNum.num D.sensitivity)
      let slopeBefore := jsIndex rollingSlopes (idx - 1)
      let slopeAfter := jsIndex rollingSlopes idx
      let trendGuard := 0 < idx ∧ idx < rollingSlopes.length
      let magHit := JSNum.gt (JSNum.abs (JSNum.sub slopeAfter slopeBefore))
        (JSNum.num D.minChangeMagnitude)
      let revHit := JSNum.lt (JSNum.mul slopeBefore slopeAfter) (JSNum.num 0)
      let change := JSNum.sub (jsIndex data idx) (jsIndex data (idx - 1))
      let diffStd := standardDeviation (differencesOf data)
      let suddenHit := JSNum.gt (JSNum.abs change)
        (JSNum.mul diffStd (JSNum.num D.sensitivity))
      let anomalyTypes : List String :=
        (if statHit then ["statistical_outlier"] else []) ++
        (if trendGuard then
          (if magHit then ["trend_change"] else []) ++
          (if revHit then ["trend_reversal"] else [])
         else []) ++
        (if 0 < idx then (if suddenHit then ["sudden_change"] else []) else [])
      let descriptions : List String :=
        (if statHit then
          ["Statistical outlier (z-score: " ++ jsToFixed (jsIndex zScores idx) 2 ++ ")"]
         else []) ++
        (if trendGuard then
          (if magHit then
            ["Trend change: " ++
              (if JSNum.gt slopeAfter slopeBefore then "increasing" else "decreasing") ++
              " trend"]
           else []) ++
          (if revHit then ["Trend reversal detected"] else [])
         else []) ++
        (if 0 < idx then
          (if suddenHit then
            ["Sudden " ++ (if JSNum.gt change (JSNum.num 0) then "spike" else "drop") ++
              " (" ++ (if JSNum.gt change (JSNum.num 0) then "+" else "") ++
              jsToFixed change 2 ++ ")"]
           else [])
         else [])
      some { index := idx
             timePeriod := jsIndex timePeriods idx
             value := jsIndex data idx
             types := anomalyTypes
             description := String.intercalate "; " descriptions })).filterMap id

/-- `generateSummary(anomalyDetails, statName)`. -/
noncomputable def generateSummary (anomalyDetails : List AnomalyDetail)
    (statName : String) : String :=
  if anomalyDetails.length = 0 then
    "No significant anomalies detected in " ++ statName ++ "."
  else
    String.intercalate "\n"
      (("Detected " ++ Nat.repr anomalyDetails.length ++ " anomalies in " ++
          statName ++ ":") ::
        anomalyDetails.map (fun detail =>
          "- Period " ++ jsNumToString detail.timePeriod ++ ": " ++
            detail.description ++ " (value: " ++ jsNumToString detail.value ++ ")"))

/-- The default time index `1 .. N` used when `timePeriods` is `null`
(a JS empty array is truthy, so only `null`/`undefined` — here `none` —
trigger the default). -/
noncomputable def timePeriodsDefault (data : List JSNum)
    (timePeriodsArg : Option (List JSNum)) : List JSNum :=
  match timePeriodsArg with
  | none => (List.range data.length).map (fun i => JSNum.num ((i : ℝ) + 1))
  | some tp => tp

/-- The `statisticalAnomalies` local of `detectTrendChanges`: indices
whose z-score exceeds the sensitivity. -/
noncomputable def statisticalAnomalies (D : Detector) (zScores : List JSNum) : List ℕ :=
  (zScores.enum.filter (fun p =>
    decide (JSNum.gt p.2 (JSNum.num D.sensitivity)))).map (fun p => p.1)

/-- The `allAnomalies` local of `detectTrendChanges`:
`[...new Set([...statisticalAnomalies, ...trendChanges, ...suddenChanges])].sort()`. -/
noncomputable def allAnomaliesOf (D : Detector) (data timePeriods : List JSNum) :
    List ℕ :=
  jsSortNat (jsSetDedup
    (D.statisticalAnomalies (calculateZScores data) ++
      D.detectSlopeChanges (D.calculateRollingSlopes data timePeriods) ++
      D.detectSuddenChanges data))

/-- `detectTrendChanges(data, statName, timePeriods = null)`: the main
detection method. -/
noncomputable def detectTrendChanges (D : Detector) (data : List JSNum)
    (statName : String) (timePeriodsArg : Option (List JSNum)) : DetectionResult :=
  if data.length < D.windowSize then
    DetectionResult.insufficient
      ("Insufficient data points. Need at least " ++ Nat.repr D.windowSize ++ " points.")
      data.length
  else
    let timePeriods := timePeriodsDefault data timePeriodsArg
    let rollingMeans := D.calculateRollingMeans data
    let rollingSlopes := D.calculateRollingSlopes data timePeriods
    let zScores := calculateZScores data
    let allAnomalies := D.allAnomaliesOf data timePeriods
    let anomalyDetails :=
      D.classifyAnomalies data rollingSlopes allAnomalies timePeriods zScores
    DetectionResult.success
      { statName := statName
        data := data
        timePeriods := timePeriods
        anomalies := allAnomalies
        anomalyDetails := anomalyDetails
        rollingMeans := rollingMeans
        rollingSlopes := rollingSlopes
        zScores := zScores
        summary := generateSummary anomalyDetails statName }

end Detector

/-- `generateNarrative` returns either a bare string (the
insufficient-data fallback) or an array of sentences. -/
inductive NarrativeResult where
  | str (s : String) : NarrativeResult
  | list (l : List String) : NarrativeResult

/-- Number of sentences carried by a narrative result. -/
def NarrativeResult.sentenceCount : NarrativeResult → ℕ
  | .str _ => 1
  | .list l => l.length

namespace Detector

/-- The `conversions` table of `convertStatName`, with its keys exactly
as written in the source (the camel-case keys can never match, since the
lookup key is lower-cased first). -/
def conversionsLookup (key : String) : Option String :=
  if key = "rush attempts" then some "rushing"
  else if key = "rush_attempts" then some "rushing"
  else if key = "rushAttempts" then some "rushing"
  else if key = "rushing" then some "rushing"
  else if key = "pass attempts" then some "passing"
  else if key = "pass_attempts" then some "passing"
  else if key = "passAttempts" then some "passing"
  else if key = "passing" then some "passing"
  else if key = "first downs" then some "first down production"
  else if key = "first_downs" then some "first down production"
  else if key = "firstDowns" then some "first down production"
  else if key = "1st downs" then some "first down production"
  else if key = "time of possession" then some "time of possession"
  else if key = "timeOfPossession" then some "time of possession"
  else if key = "time_of_possession" then some "time of possession"
  else if key = "yards per play" then some "offensive efficiency"
  else if key = "yards_per_play" then some "offensive efficiency"
  else if key = "yardsPerPlay" then some "offensive efficiency"
  else if key = "third down conversions" then some "third down success"
  else if key = "third_down_conversions" then some "third down success"
  else if key = "thirdDownConversions" then some "third down success"
  else if key = "red zone attempts" then some "red zone opportunities"
  else if key = "turnovers" then some "ball security"
  else if key = "sacks allowed" then some "pass protection"
  else if key = "penalties" then some "discipline"
  else none

/-- JS `s.toLowerCase()`, modelled per character (all stat labels used
here are ASCII). -/
def jsToLowerCase (s : String) : String := String.mk (s.data.map Char.toLower)

/-- `convertStatName(statName)`. -/
def convertStatName (statName : String) : String :=
  match conversionsLookup (jsToLowerCase statName) with
  | some v => v
  | none => jsToLowerCase statName

/-- `capitalize(str)`. -/
def capitalize (s : String) : String :=
  match s.toList with
  | [] => ""
  | c :: cs => String.mk (c.toUpper :: cs)

/-- JS `.sort((a, b) => a.index - b.index)` (stable sort by index). -/
def sortByIndex (l : List AnomalyDetail) : List AnomalyDetail :=
  l.insertionSort (fun a b => a.index < b.index)

/-- `generateTrendStatements(trendChanges, trendReversals, statName,
rollingSlopes)`. -/
noncomputable def generateTrendStatements (trendChanges trendReversals : List AnomalyDetail)
    (statName : String) (rollingSlopes : List JSNum) : List String :=
  let allTrendAnomalies := sortByIndex (trendChanges ++ trendReversals)
  match allTrendAnomalies.getLast? with
  | none => []
  | some latestAnomaly =>
    let currentSlope := jsIndex rollingSlopes latestAnomaly.index
    if trendReversals.any (fun r => r.index == latestAnomaly.index) then
      if JSNum.gt currentSlope (JSNum.num 0) then
        [capitalize statName ++ " has picked up significantly."]
      else
        [capitalize statName ++ " has dropped off notably."]
    else
      if JSNum.gt currentSlope (JSNum.num 0.5) then
        ["The team has been increasing their " ++ statName ++ "."]
      else if JSNum.lt currentSlope (JSNum.num (-0.5)) then
        [capitalize statName ++ " has decreased over the last few drives."]
      else if JSNum.gt (JSNum.abs currentSlope) (JSNum.num 0.2) then
        ["There\x27s been a slight " ++
          (if JSNum.gt currentSlope (JSNum.num 0) then "uptick" else "downtick") ++
          " in " ++ statName ++ " recently."]
      else []

/-- `generateSuddenChangeStatements(suddenChanges, statName)`. -/
noncomputable def generateSuddenChangeStatements (suddenChanges : List AnomalyDetail)
    (statName : String) : List String :=
  suddenChanges.foldr (fun change acc =>
    (if strIncludes change.description "spike" then
      (if statName = "rushing" then
        ["The team suddenly emphasized the running game."]
       else if statName = "passing" then
        ["The offense opened up the passing attack."]
       else if statName = "first down production" then
        ["The offense found their rhythm and started moving the chains."]
       else
        ["There was a sudden surge in " ++ statName ++ "."])
     else if strIncludes change.description "drop" then
      (if statName = "rushing" then
        ["The team moved away from the running game."]
       else if statName = "passing" then
        ["The passing game stalled."]
       else if statName = "first down production" then
        ["The offense struggled to sustain drives."]
       else
        ["There was a noticeable drop in " ++ statName ++ "."])
     else []) ++ acc) []

/-- `generateOutlierStatements(outliers, statName, data)`. -/
noncomputable def generateOutlierStatements (outliers : List AnomalyDetail)
    (statName : String) (data : List JSNum) : List String :=
  let dataAvg := mean data
  outliers.foldr (fun outlier acc =>
    (if JSNum.gt outlier.value dataAvg then
      (if statName = "rushing" then
        ["The team heavily featured the running game with " ++
          jsNumToString outlier.value ++ " attempts."]
       else if statName = "passing" then
        ["The quarterback was very busy, throwing " ++
          jsNumToString outlier.value ++ " passes."]
       else if statName = "first down production" then
        ["The offense was extremely efficient, converting " ++
          jsNumToString outlier.value ++ " first downs."]
       else
        [capitalize statName ++ " was unusually high at " ++
          jsNumToString outlier.value ++ "."])
     else
      (if statName = "rushing" then
        ["The running game was nearly abandoned with only " ++
          jsNumToString outlier.value ++ " attempts."]
       else if statName = "passing" then
        ["The passing game was minimal with just " ++
          jsNumToString outlier.value ++ " attempts."]
       else if statName = "first down production" then
        ["The offense struggled badly, managing only " ++
          jsNumToString outlier.value ++ " first downs."]
       else
        [capitalize statName ++ " was surprisingly low at " ++
          jsNumToString outlier.value ++ "."])) ++ acc) []

/-- `generateNarrative(results)`.  The `if (results.error)` truthiness
test is modelled by matching on the result shape: the insufficient-data
object always carries a non-empty (hence truthy) `error` string, and the
success object has no `error` field. -/
noncomputable def generateNarrative (results : DetectionResult) :
    NarrativeResult :=
  match results with
  | DetectionResult.insufficient _ _ =>
      NarrativeResult.str "Not enough data to analyze trends yet."
  | DetectionResult.success r =>
      let readableStatName := convertStatName r.statName
      if r.anomalyDetails.length = 0 then
        NarrativeResult.list
          [readableStatName ++ " has remained fairly consistent throughout the game."]
      else
        let trendChanges := r.anomalyDetails.filter
          (fun a => a.types.contains "trend_change")
        let trendReversals := r.anomalyDetails.filter
          (fun a => a.types.contains "trend_reversal")
        let suddenChanges := r.anomalyDetails.filter
          (fun a => a.types.contains "sudden_change")
        let outliers := r.anomalyDetails.filter
          (fun a => a.types.contains "statistical_outlier")
        NarrativeResult.list
          ((if 0 < trendChanges.length ∨ 0 < trendReversals.length then
              generateTrendStatements trendChanges trendReversals readableStatName
                r.rollingSlopes
            else []) ++
           (if 0 < suddenChanges.length then
              generateSuddenChangeStatements suddenChanges readableStatName
            else []) ++
           (if 0 < outliers.length then
              generateOutlierStatements outliers readableStatName r.data
            else []))

/-- `generateOverallNarrative(results)` (defined in the source, its only
call site is commented out). -/
noncomputable def generateOverallNarrative (r : DetectionSuccess) :
    Option String :=
  let recentSlopes := r.rollingSlopes.drop (r.rollingSlopes.length - 3)
  let avgRecentSlope := mean recentSlopes
  let overallSlope := linearRegression
    ((List.range r.data.length).map (fun i => JSNum.num ((i : ℝ) + 1))) r.data
  if 3 ≤ r.anomalyDetails.length then
    some "This has been a game of significant strategic adjustments and momentum shifts."
  else if JSNum.gt (JSNum.abs overallSlope) (JSNum.num 0.5) then
    some ("Overall, there\x27s been a clear " ++
      (if JSNum.gt overallSlope (JSNum.num 0) then "increasing" else "decreasing") ++
      " trend throughout the game.")
  else if JSNum.gt avgRecentSlope (JSNum.num 0.3) then
    some "The trend has been positive in recent drives."
  else if JSNum.lt avgRecentSlope (JSNum.num (-0.3)) then
    some "The recent trend has been concerning."
  else none

end Detector

section BasicLemmas

open JSNum

theorem foldl_add_map_num (l : List ℝ) (a : ℝ) :
    List.foldl JSNum.add (JSNum.num a) (l.map JSNum.num) = JSNum.num (a + l.sum) := by
  induction l generalizing a with
  | nil => simp
  | cons x xs ih => simp [ih, add_assoc]

theorem jsSum_map_num (l : List ℝ) : jsSum (l.map JSNum.num) = JSNum.num l.sum := by
  simp [jsSum, foldl_add_map_num]

theorem jsSum_replicate (n : ℕ) (c : ℝ) :
    jsSum (List.replicate n (JSNum.num c)) = JSNum.num (n * c) := by
  have h := jsSum_map_num (List.replicate n c)
  simpa [List.map_replicate, List.sum_replicate, nsmul_eq_mul] using h

theorem mean_map_num (l : List ℝ) (h : l ≠ []) :
    Detector.mean (l.map JSNum.num) = JSNum.num (l.sum / l.length) := by
  have hlen : (l.length : ℝ) ≠ 0 := by
    simpa using List.length_pos.mpr h |>.ne'
  simp [Detector.mean, jsSum_map_num, div_num_num_of_ne _ hlen]

theorem mean_replicate {n : ℕ} (c : ℝ) (h : 0 < n) :
    Detector.mean (List.replicate n (JSNum.num c)) = JSNum.num c := by
  have hlen : ((n : ℝ)) ≠ 0 := Nat.cast_ne_zero.mpr h.ne'
  simp [Detector.mean, jsSum_replicate, List.length_replicate,
    div_num_num_of_ne _ hlen, mul_div_assoc, mul_div_cancel_left₀, hlen]

theorem standardDeviation_replicate {n : ℕ} (c : ℝ) (h : 0 < n) :
    Detector.standardDeviation (List.replicate n (JSNum.num c)) = JSNum.num 0 := by
  simp only [Detector.standardDeviation, mean_replicate c h, List.map_replicate,
    JSNum.sub_num_num, sub_self, JSNum.pow2_num, mul_zero, mean_replicate (0 : ℝ) h]
  simp

theorem calculateZScores_replicate {n : ℕ} (c : ℝ) (h : 0 < n) :
    Detector.calculateZScores (List.replicate n (JSNum.num c)) =
      List.replicate n JSNum.nan := by
  unfold Detector.calculateZScores
  rw [mean_replicate c h, standardDeviation_replicate c h]
  simp [List.map_replicate]

@[simp] theorem length_calculateZScores (data : List JSNum) :
    (Detector.calculateZScores data).length = data.length := by
  simp [Detector.calculateZScores]

@[simp] theorem length_calculateRollingMeans (D : Detector) (data : List JSNum) :
    (D.calculateRollingMeans data).length = data.length := by
  simp [Detector.calculateRollingMeans]

@[simp] theorem length_calculateRollingSlopes (D : Detector) (data tp : List JSNum) :
    (D.calculateRollingSlopes data tp).length = data.length := by
  simp [Detector.calculateRollingSlopes]

@[simp] theorem length_differencesOf (data : List JSNum) :
    (Detector.differencesOf data).length = data.length - 1 := by
  simp [Detector.differencesOf]

theorem jsSetDedup_mem : ∀ (l : List ℕ) (x : ℕ), x ∈ jsSetDedup l ↔ x ∈ l := by
  intro l
  induction l using jsSetDedup.induct with
  | case1 => simp [jsSetDedup]
  | case2 a t ih =>
      intro x
      rw [jsSetDedup]
      simp only [List.mem_cons, ih x, List.mem_filter, decide_eq_true_eq]
      by_cases hxa : x = a <;> simp [hxa]

theorem jsSetDedup_nodup (l : List ℕ) : (jsSetDedup l).Nodup := by
  induction l using jsSetDedup.induct with
  | case1 => simp [jsSetDedup]
  | case2 a t ih =>
      rw [jsSetDedup]
      refine List.nodup_cons.mpr ⟨?_, ih⟩
      intro hmem
      have := (jsSetDedup_mem _ a).mp hmem
      rcases List.mem_filter.mp this with ⟨_, hne⟩
      simp at hne

theorem jsSortNat_perm (l : List ℕ) : (jsSortNat l).Perm l :=
  List.perm_insertionSort _ _

theorem jsSortNat_sorted (l : List ℕ) : (jsSortNat l).Sorted jsStrLe :=
  List.sorted_insertionSort _ _

theorem jsSortNat_mem (l : List ℕ) (x : ℕ) : x ∈ jsSortNat l ↔ x ∈ l :=
  (jsSortNat_perm l).mem_iff

theorem jsSortNat_nodup {l : List ℕ} (h : l.Nodup) : (jsSortNat l).Nodup :=
  (jsSortNat_perm l).nodup_iff.mpr h

end BasicLemmas

section SpecSide

/-- Spec-side description (section 4.1 of the spec): the arithmetic mean
of `Series[max(0, i - W + 1) .. i]`, stated over exact reals. -/
noncomputable def specRollingMean (W : ℕ) (data : List ℝ) (i : ℕ) : ℝ :=
  ((data.take (i + 1)).drop (i + 1 - W)).sum /
    ((data.take (i + 1)).drop (i + 1 - W)).length

/-- Spec-side description: the mean of the last `min(W, N)` elements. -/
noncomputable def specLastWindowMean (W : ℕ) (data : List ℝ) : ℝ :=
  (data.drop (data.length - min W data.length)).sum / (min W data.length)

end SpecSide

section EvalLemmas

open JSNum Detector

theorem getD_range_map {α : Type} (f : ℕ → α) (N i : ℕ) (d : α) (h : i < N) :
    (((List.range N).map f).getD i d) = f i := by
  rw [List.getD_eq_getElem?_getD]
  simp [List.getElem?_map, List.getElem?_range, h]

theorem foldXY (xs l : List ℝ) (n : ℕ) (a : ℝ) (h : n + xs.length ≤ l.length) :
    ((xs.map JSNum.num).enumFrom n).foldl
      (fun s p => JSNum.add s (JSNum.mul p.2 (jsIndex (l.map JSNum.num) p.1)))
      (JSNum.num a) =
    JSNum.num (a + (List.zipWith (fun u v => u * v) xs (l.drop n)).sum) := by
  induction xs generalizing n a with
  | nil => simp
  | cons x xs ih =>
      have hn : n < l.length := by
        have := h
        simp only [List.length_cons] at this
        omega
      have hidx : jsIndex (l.map JSNum.num) n = JSNum.num (l.get ⟨n, hn⟩) := by
        simp [jsIndex, List.getD_eq_getElem?_getD, List.getElem?_map,
          List.getElem?_eq_getElem hn]
      have hdrop : l.drop n = l.get ⟨n, hn⟩ :: l.drop (n + 1) :=
        List.drop_eq_getElem_cons hn
      have hih := ih (n + 1) (a + x * l.get ⟨n, hn⟩) (by
        simp only [List.length_cons] at h; omega)
      simp only [List.map_cons, List.enumFrom_cons, List.foldl_cons, hidx,
        JSNum.mul_num_num, JSNum.add_num_num, hih, hdrop, List.zipWith_cons_cons,
        List.sum_cons]
      congr 1
      ring

theorem jsSumXY_map_num (xs ys : List ℝ) (h : xs.length ≤ ys.length) :
    jsSumXY (xs.map JSNum.num) (ys.map JSNum.num) =
      JSNum.num ((List.zipWith (fun u v => u * v) xs ys).sum) := by
  have := foldXY xs ys 0 0 (by simpa using h)
  simpa [jsSumXY, List.enum] using this

theorem jsSumSq_map_num (xs : List ℝ) :
    jsSumSq (xs.map JSNum.num) = JSNum.num ((xs.map (fun t => t * t)).sum) := by
  have aux : ∀ (l : List ℝ) (a : ℝ),
      (l.map JSNum.num).foldl (fun s xi => JSNum.add s (JSNum.mul xi xi))
        (JSNum.num a) = JSNum.num (a + (l.map (fun t => t * t)).sum) := by
    intro l
    induction l with
    | nil => simp
    | cons x xs ih => intro a; simp [ih, add_assoc]
  simpa [jsSumSq] using aux xs 0

/-- `linearRegression` on finite real inputs, as a single real fraction
(the JS division of the two accumulated sums). -/
theorem linearRegression_map_num (xs ys : List ℝ) (h : xs.length ≤ ys.length) :
    Detector.linearRegression (xs.map JSNum.num) (ys.map JSNum.num) =
      JSNum.div
        (JSNum.num ((xs.length : ℝ) * (List.zipWith (fun u v => u * v) xs ys).sum -
          xs.sum * ys.sum))
        (JSNum.num ((xs.length : ℝ) * (xs.map (fun t => t * t)).sum -
          xs.sum * xs.sum)) := by
  simp [Detector.linearRegression, jsSum_map_num, jsSumXY_map_num xs ys h,
    jsSumSq_map_num]

/-- The population variance expression computed by `standardDeviation`. -/
noncomputable def varExpr (l : List ℝ) : ℝ :=
  ((l.map (fun v => (v - l.sum / l.length) * (v - l.sum / l.length))).sum) / l.length

theorem varExpr_nonneg (l : List ℝ) : 0 ≤ varExpr l := by
  apply div_nonneg
  · apply List.sum_nonneg
    intro x hx
    rcases List.mem_map.mp hx with ⟨v, _, rfl⟩
    exact mul_self_nonneg _
  · exact Nat.cast_nonneg _

theorem standardDeviation_map_num (l : List ℝ) (h : l ≠ []) :
    Detector.standardDeviation (l.map JSNum.num) = JSNum.num (Real.sqrt (varExpr l)) := by
  have havg := mean_map_num l h
  have hmap : (l.map JSNum.num).map
      (fun val => JSNum.pow2 (JSNum.sub val (JSNum.num (l.sum / l.length)))) =
      (l.map (fun v => (v - l.sum / l.length) * (v - l.sum / l.length))).map
        JSNum.num := by
    simp [List.map_map, Function.comp]
  have hne : (l.map (fun v => (v - l.sum / l.length) * (v - l.sum / l.length))) ≠ [] := by
    simpa using h
  simp only [Detector.standardDeviation, havg, hmap,
    mean_map_num _ hne, List.length_map]
  rw [JSNum.sqrt_num_nonneg]
  · rfl
  · exact varExpr_nonneg l

theorem calculateZScores_map_num (l : List ℝ) (h : l ≠ []) (hq : varExpr l ≠ 0) :
    Detector.calculateZScores (l.map JSNum.num) =
      l.map (fun v => JSNum.num |(v - l.sum / l.length) / Real.sqrt (varExpr l)|) := by
  have hs : Real.sqrt (varExpr l) ≠ 0 := by
    rw [Real.sqrt_ne_zero' ]
    exact lt_of_le_of_ne (varExpr_nonneg l) (Ne.symm hq)
  simp only [Detector.calculateZScores, mean_map_num l h, standardDeviation_map_num l h,
    List.map_map, Function.comp]
  refine List.map_congr_left ?_
  intro v _
  simp [div_num_num_of_ne _ hs]

end EvalLemmas

section DetectShape

theorem detect_insufficient_eq (D : Detector) (data : List JSNum) (statName : String)
    (tp : Option (List JSNum)) (h : data.length < D.windowSize) :
    D.detectTrendChanges data statName tp =
      DetectionResult.insufficient
        ("Insufficient data points. Need at least " ++ Nat.repr D.windowSize ++
          " points.") data.length := by
  simp [Detector.detectTrendChanges, h]

theorem detect_not_insufficient (D : Detector) (data : List JSNum) (statName : String)
    (tp : Option (List JSNum)) (h : D.windowSize ≤ data.length) :
    (D.detectTrendChanges data statName tp).isInsufficient = false := by
  simp [Detector.detectTrendChanges, Nat.not_lt.mpr h, DetectionResult.isInsufficient]

end DetectShape

/-- C7: for every series strictly shorter than `windowSize`,
`detectTrendChanges` returns the structured insufficient-data value (not
a thrown error) reporting the actual series length; the constructor
carries no derived arrays, so none are computed or returned. -/
theorem claim_C7_insufficient (D : Detector) (data : List JSNum) (statName : String)
    (tp : Option (List JSNum)) (h : data.length < D.windowSize) :
    D.detectTrendChanges data statName tp =
      DetectionResult.insufficient
        ("Insufficient data points. Need at least " ++ Nat.repr D.windowSize ++
          " points.") data.length :=
  detect_insufficient_eq D data statName tp h

theorem claim_C7_witness :
    defaultDetector.detectTrendChanges [JSNum.num 3] "Rushes per drive" none =
      DetectionResult.insufficient
        ("Insufficient data points. Need at least " ++
          Nat.repr defaultDetector.windowSize ++ " points.")
        (List.length [JSNum.num 3]) :=
  claim_C7_insufficient defaultDetector [JSNum.num 3] "Rushes per drive" none
    (by simp [defaultDetector])

/-- C6: on every insufficient-data detection result, `generateNarrative`
returns exactly one fallback sentence (the "not enough data" string) and
does not raise. -/
theorem claim_C6_narrative_fallback (D : Detector) (data : List JSNum)
    (statName : String) (tp : Option (List JSNum)) (h : data.length < D.windowSize) :
    Detector.generateNarrative (D.detectTrendChanges data statName tp) =
        NarrativeResult.str "Not enough data to analyze trends yet." ∧
      (Detector.generateNarrative (D.detectTrendChanges data statName tp)).sentenceCount
        = 1 := by
  rw [detect_insufficient_eq D data statName tp h]
  exact ⟨rfl, rfl⟩

theorem claim_C6_witness :
    Detector.generateNarrative
        (defaultDetector.detectTrendChanges [JSNum.num 3] "Rushes per drive" none) =
        NarrativeResult.str "Not enough data to analyze trends yet." ∧
      (Detector.generateNarrative
        (defaultDetector.detectTrendChanges [JSNum.num 3] "Rushes per drive"
          none)).sentenceCount = 1 :=
  claim_C6_narrative_fallback defaultDetector [JSNum.num 3] "Rushes per drive" none
    (by simp [defaultDetector])

/-- C4 (amended): `detectTrendChanges` performs no series/time-index
length validation at all.  Whenever the series is long enough it returns
a full success result, even when the supplied `timePeriods` has a
different length than the series; no validation error is raised and the
mismatched inputs are processed as-is. -/
theorem claim_C4_no_validation (D : Detector) (data tp : List JSNum)
    (statName : String) (h : D.windowSize ≤ data.length) :
    (D.detectTrendChanges data statName (some tp)).isInsufficient = false :=
  detect_not_insufficient D data statName (some tp) h

theorem claim_C4_witness :
    (defaultDetector.detectTrendChanges (List.map JSNum.num [1, 2, 3, 4, 5, 6])
      "Rushes per drive"
      (some (List.map JSNum.num [1, 2, 3, 4, 5]))).isInsufficient = false :=
  claim_C4_no_validation defaultDetector (List.map JSNum.num [1, 2, 3, 4, 5, 6])
    (List.map JSNum.num [1, 2, 3, 4, 5]) "Rushes per drive" (by simp [defaultDetector])

/-- C4 counterexample: with a series of length 6 and an explicit
time-index of length 5, `detectTrendChanges` does not produce any
validation error: it returns a full (non-insufficient) result, silently
computed from the mismatched inputs. -/
theorem claim_C4_counterexample :
    (defaultDetector.detectTrendChanges (List.map JSNum.num [1, 2, 3, 4, 5, 6])
      "Rushes per drive"
      (some (List.map JSNum.num [1, 2, 3, 4, 5]))).isInsufficient = false := by
  apply detect_not_insufficient
  simp [defaultDetector]

section RollingMeans

theorem rollingMeans_getD (D : Detector) (data : List ℝ) (i : ℕ)
    (hW : 1 ≤ D.windowSize) (hi : i < data.length) :
    (D.calculateRollingMeans (data.map JSNum.num)).getD i JSNum.nan =
      JSNum.num (specRollingMean D.windowSize data i) := by
  have hlen : i < (data.map JSNum.num).length := by simpa using hi
  unfold Detector.calculateRollingMeans
  rw [getD_range_map _ _ _ _ hlen]
  have hslice : jsSlice (data.map JSNum.num) (i + 1 - D.windowSize) (i + 1) =
      ((data.take (i + 1)).drop (i + 1 - D.windowSize)).map JSNum.num := by
    simp [jsSlice, List.map_take, List.map_drop]
  have hne : (data.take (i + 1)).drop (i + 1 - D.windowSize) ≠ [] := by
    apply List.ne_nil_of_length_pos
    rw [List.length_drop, List.length_take]
    omega
  rw [hslice, mean_map_num _ hne]
  rfl

/-- C8: `RollingMean[i]` is exactly the arithmetic mean of
`Series[max(0, i-W+1) .. i]` for every position `i`, and in particular
the entry at the last index is the mean of the last `min(W, N)`
elements (exact equality over the exact-arithmetic embedding). -/
theorem claim_C8_rolling_means (D : Detector) (data : List ℝ) (i : ℕ)
    (hW : 1 ≤ D.windowSize) (hd : data ≠ []) (hi : i < data.length) :
    (D.calculateRollingMeans (data.map JSNum.num)).getD i JSNum.nan =
        JSNum.num (specRollingMean D.windowSize data i) ∧
      (D.calculateRollingMeans (data.map JSNum.num)).getD (data.length - 1) JSNum.nan =
        JSNum.num (specLastWindowMean D.windowSize data) := by
  have hN : 1 ≤ data.length := List.length_pos.mpr hd
  refine ⟨rollingMeans_getD D data i hW hi, ?_⟩
  rw [rollingMeans_getD D data (data.length - 1) hW (by omega)]
  congr 1
  unfold specRollingMean specLastWindowMean
  have h1 : data.length - 1 + 1 = data.length := by omega
  rw [h1, List.take_length]
  have h2 : data.length - D.windowSize = data.length - min D.windowSize data.length := by
    rcases le_total D.windowSize data.length with hc | hc
    · rw [min_eq_left hc]
    · rw [min_eq_right hc]; omega
  rw [h2, List.length_drop]
  congr 1
  have : min D.windowSize data.length ≤ data.length := min_le_right _ _
  have h3 : data.length - (data.length - min D.windowSize data.length) =
      min D.windowSize data.length := by omega
  rw [h3]

theorem claim_C8_witness :
    (defaultDetector.calculateRollingMeans
        (List.map JSNum.num [1, 2, 3, 4, 5, 6, 7])).getD 6 JSNum.nan =
        JSNum.num (specRollingMean defaultDetector.windowSize [1, 2, 3, 4, 5, 6, 7] 6) ∧
      (defaultDetector.calculateRollingMeans
        (List.map JSNum.num [1, 2, 3, 4, 5, 6, 7])).getD
          (List.length [(1 : ℝ), 2, 3, 4, 5, 6, 7] - 1) JSNum.nan =
        JSNum.num (specLastWindowMean defaultDetector.windowSize [1, 2, 3, 4, 5, 6, 7]) :=
  claim_C8_rolling_means defaultDetector [1, 2, 3, 4, 5, 6, 7] 6
    (by simp [defaultDetector]) (by simp) (by simp)

end RollingMeans

section ConstTimeSlope

theorem linearRegression_const_time (c : ℝ) (ys : List ℝ) :
    Detector.linearRegression (List.replicate ys.length (JSNum.num c))
      (ys.map JSNum.num) = JSNum.nan := by
  have hrep : List.replicate ys.length (JSNum.num c) =
      (List.replicate ys.length c).map JSNum.num := by
    simp [List.map_replicate]
  rw [hrep, linearRegression_map_num _ _ (by simp)]
  have hxy : ∀ (l : List ℝ),
      List.zipWith (fun u v => u * v) (List.replicate l.length c) l =
        l.map (fun v => c * v) := by
    intro l
    induction l with
    | nil => simp
    | cons a t ih =>
        rw [List.length_cons, List.replicate_succ, List.zipWith_cons_cons, ih,
          List.map_cons]
  have hsq : (List.replicate ys.length c).map (fun t => t * t) =
      List.replicate ys.length (c * c) := List.map_replicate
  rw [hxy ys, hsq]
  have h1 : ((List.replicate ys.length c).length : ℝ) = (ys.length : ℝ) := by simp
  have h2 : (List.replicate ys.length c).sum = (ys.length : ℝ) * c := by
    simp [List.sum_replicate, nsmul_eq_mul]
  have h3 : (List.replicate ys.length (c * c)).sum = (ys.length : ℝ) * (c * c) := by
    simp [List.sum_replicate, nsmul_eq_mul]
  have h4 : ∀ l : List ℝ, (l.map (fun v => c * v)).sum = c * l.sum := by
    intro l
    induction l with
    | nil => simp
    | cons a t ih => simp [ih, mul_add]
  rw [h1, h2, h3, h4 ys]
  have hnum : (ys.length : ℝ) * (c * ys.sum) - (ys.length : ℝ) * c * ys.sum = 0 := by
    ring
  have hden : (ys.length : ℝ) * ((ys.length : ℝ) * (c * c)) -
      (ys.length : ℝ) * c * ((ys.length : ℝ) * c) = 0 := by
    ring
  rw [hnum, hden]
  simp

theorem rollingSlopes_const_time (D : Detector) (data tp : List ℝ) (i : ℕ) (c : ℝ)
    (hi : i < data.length)
    (hrep : (tp.take (i + 1)).drop (i + 1 - D.windowSize) =
      List.replicate (((data.take (i + 1)).drop (i + 1 - D.windowSize)).length) c)
    (hlen : 2 ≤ ((data.take (i + 1)).drop (i + 1 - D.windowSize)).length) :
    (D.calculateRollingSlopes (data.map JSNum.num) (tp.map JSNum.num)).getD i
      JSNum.nan = JSNum.nan := by
  have hmaplen : i < (data.map JSNum.num).length := by simpa using hi
  unfold Detector.calculateRollingSlopes
  rw [getD_range_map _ _ _ _ hmaplen]
  have hdata : jsSlice (data.map JSNum.num) (i + 1 - D.windowSize) (i + 1) =
      ((data.take (i + 1)).drop (i + 1 - D.windowSize)).map JSNum.num := by
    simp [jsSlice, List.map_take, List.map_drop]
  have htp : jsSlice (tp.map JSNum.num) (i + 1 - D.windowSize) (i + 1) =
      ((tp.take (i + 1)).drop (i + 1 - D.windowSize)).map JSNum.num := by
    simp [jsSlice, List.map_take, List.map_drop]
  simp only [hdata, htp, hrep, List.map_replicate, List.length_map]
  rw [if_pos (by omega)]
  exact linearRegression_const_time c _

/-- C5 (amended): a rolling window whose time-index values are all equal
makes both the regression numerator and denominator exactly 0, and the
JS division `0/0` yields `NaN`: the computed rolling slope is `NaN`, not
`0` (nothing is raised; the undefined ratio is simply propagated). -/
theorem claim_C5_const_time_nan (D : Detector) (data tp : List ℝ) (i : ℕ) (c : ℝ)
    (hi : i < data.length)
    (hrep : (tp.take (i + 1)).drop (i + 1 - D.windowSize) =
      List.replicate (((data.take (i + 1)).drop (i + 1 - D.windowSize)).length) c)
    (hlen : 2 ≤ ((data.take (i + 1)).drop (i + 1 - D.windowSize)).length) :
    (D.calculateRollingSlopes (data.map JSNum.num) (tp.map JSNum.num)).getD i
      JSNum.nan = JSNum.nan :=
  rollingSlopes_const_time D data tp i c hi hrep hlen

theorem claim_C5_witness :
    ((Detector.mk 2 2 0.3).calculateRollingSlopes (List.map JSNum.num [1, 2])
      (List.map JSNum.num [3, 3])).getD 1 JSNum.nan = JSNum.nan :=
  claim_C5_const_time_nan (Detector.mk 2 2 0.3) [1, 2] [3, 3] 1 3
    (by norm_num)
    (by norm_num [List.replicate])
    (by norm_num)

/-- C5 counterexample: for the two-point window with constant time index
`[3, 3]`, the computed rolling slope is not `0` (it is `NaN`). -/
theorem claim_C5_counterexample :
    ((Detector.mk 2 2 0.3).calculateRollingSlopes (List.map JSNum.num [1, 2])
      (List.map JSNum.num [3, 3])).getD 1 JSNum.nan ≠ JSNum.num 0 := by
  rw [rollingSlopes_const_time (Detector.mk 2 2 0.3) [1, 2] [3, 3] 1 3
    (by norm_num) (by norm_num [List.replicate]) (by norm_num)]
  intro h
  exact JSNum.noConfusion h

end ConstTimeSlope

section SuddenConstDiff

theorem zipWith_sub_map_num : ∀ (u v : List ℝ),
    List.zipWith JSNum.sub (u.map JSNum.num) (v.map JSNum.num) =
      (List.zipWith (fun a b => a - b) u v).map JSNum.num := by
  intro u
  induction u with
  | nil => intro v; simp
  | cons a t ih =>
      intro v
      cases v with
      | nil => simp
      | cons b s => simp [ih]

theorem differencesOf_map_num (data : List ℝ) :
    Detector.differencesOf (data.map JSNum.num) =
      (List.zipWith (fun a b => a - b) (data.drop 1) data).map JSNum.num := by
  unfold Detector.differencesOf
  rw [← List.map_drop, zipWith_sub_map_num]

theorem enumFrom_replicate (x : JSNum) : ∀ (k n : ℕ),
    List.enumFrom n (List.replicate k x) = (List.range' n k).map (fun i => (i, x)) := by
  intro k
  induction k with
  | zero => intro n; simp
  | succ k ih => intro n; simp [List.replicate_succ, List.range'_succ, ih]

theorem sudden_const_diff (D : Detector) (data : List ℝ) (d : ℝ)
    (h2 : 2 ≤ data.length)
    (hdiff : List.zipWith (fun a b => a - b) (data.drop 1) data =
      List.replicate (data.length - 1) d) :
    D.detectSuddenChanges (data.map JSNum.num) =
      if d = 0 then [] else List.range' 1 (data.length - 1) := by
  have hk : 0 < data.length - 1 := by omega
  have hNlt : ¬ ((data.map JSNum.num).length < 2) := by simp; omega
  simp only [Detector.detectSuddenChanges, if_neg hNlt, differencesOf_map_num, hdiff,
    List.map_replicate, standardDeviation_replicate d hk, JSNum.mul_num_num, zero_mul]
  have henum : (List.replicate (data.length - 1) (JSNum.num d)).enum =
      (List.range' 0 (data.length - 1)).map (fun i => (i, JSNum.num d)) := by
    simpa [List.enum] using enumFrom_replicate (JSNum.num d) (data.length - 1) 0
  rw [henum, List.filter_map]
  by_cases hd : d = 0
  · subst hd
    have hfilt : (fun i : ℕ => decide
        (JSNum.gt (JSNum.abs ((fun i : ℕ => ((i : ℕ), JSNum.num (0 : ℝ))) i).2)
          (JSNum.num 0))) = fun _ => false := by
      funext i
      simp
    simp [Function.comp, hfilt]
  · rw [if_neg hd]
    have habs : (0 : ℝ) < |d| := abs_pos.mpr hd
    have hfilt : ∀ l : List ℕ, List.filter ((fun p : ℕ × JSNum => decide
        (JSNum.gt (JSNum.abs p.2) (JSNum.num 0))) ∘ (fun i => (i, JSNum.num d))) l = l := by
      intro l
      apply List.filter_eq_self.mpr
      intro a _
      simp [Function.comp, habs]
    rw [hfilt]
    rw [List.map_map]
    have : ((fun p : ℕ × JSNum => p.1 + 1) ∘ (fun i => (i, JSNum.num d))) =
        (fun i : ℕ => i + 1) := rfl
    rw [this]
    have hr : ∀ k n : ℕ, (List.range' n k).map (fun i => i + 1) = List.range' (n + 1) k := by
      intro k
      induction k with
      | zero => intro n; simp
      | succ k ih => intro n; simp [List.range'_succ, ih]
    rw [hr]

/-- C3 (amended): for a series whose first differences all equal `d`,
the difference stddev is exactly 0, so the threshold is 0 and the strict
comparison `|d| > 0` decides everything: when `d = 0` (constant series)
no index is flagged, but for any `d ≠ 0` (a genuinely sloped linear
series) every index `1 .. N-1` is flagged as a sudden change. -/
theorem claim_C3_linear_series (D : Detector) (data : List ℝ) (d : ℝ)
    (h2 : 2 ≤ data.length)
    (hdiff : List.zipWith (fun a b => a - b) (data.drop 1) data =
      List.replicate (data.length - 1) d) :
    D.detectSuddenChanges (data.map JSNum.num) =
      if d = 0 then [] else List.range' 1 (data.length - 1) :=
  sudden_const_diff D data d h2 hdiff

theorem claim_C3_witness :
    defaultDetector.detectSuddenChanges (List.map JSNum.num [0, 10, 20]) =
      if (10 : ℝ) = 0 then [] else List.range' 1 (List.length [(0 : ℝ), 10, 20] - 1) :=
  claim_C3_linear_series defaultDetector [0, 10, 20] 10 (by norm_num)
    (by norm_num [List.replicate])

/-- C3 counterexample: the perfectly linear series `[0, 10, 20]` (all
first differences equal to 10) does get sudden-change flags; in fact
both indices 1 and 2 are flagged, refuting "no index is flagged". -/
theorem claim_C3_counterexample :
    defaultDetector.detectSuddenChanges (List.map JSNum.num [0, 10, 20]) ≠ [] := by
  rw [sudden_const_diff defaultDetector [0, 10, 20] 10 (by norm_num)
    (by norm_num [List.replicate])]
  norm_num

end SuddenConstDiff

section DetectAccessors

theorem detect_success_eq (D : Detector) (data : List JSNum) (statName : String)
    (tpArg : Option (List JSNum)) (h : D.windowSize ≤ data.length) :
    D.detectTrendChanges data statName tpArg =
      DetectionResult.success
        { statName := statName
          data := data
          timePeriods := Detector.timePeriodsDefault data tpArg
          anomalies := D.allAnomaliesOf data (Detector.timePeriodsDefault data tpArg)
          anomalyDetails := D.classifyAnomalies data
            (D.calculateRollingSlopes data (Detector.timePeriodsDefault data tpArg))
            (D.allAnomaliesOf data (Detector.timePeriodsDefault data tpArg))
            (Detector.timePeriodsDefault data tpArg)
            (Detector.calculateZScores data)
          rollingMeans := D.calculateRollingMeans data
          rollingSlopes := D.calculateRollingSlopes data
            (Detector.timePeriodsDefault data tpArg)
          zScores := Detector.calculateZScores data
          summary := Detector.generateSummary
            (D.classifyAnomalies data
              (D.calculateRollingSlopes data (Detector.timePeriodsDefault data tpArg))
              (D.allAnomaliesOf data (Detector.timePeriodsDefault data tpArg))
              (Detector.timePeriodsDefault data tpArg)
              (Detector.calculateZScores data)) statName } := by
  simp [Detector.detectTrendChanges, Nat.not_lt.mpr h]

theorem zScoresOf_detect (D : Detector) (data : List JSNum) (statName : String)
    (tpArg : Option (List JSNum)) (h : D.windowSize ≤ data.length) :
    (D.detectTrendChanges data statName tpArg).zScoresOf =
      Detector.calculateZScores data := by
  rw [detect_success_eq D data statName tpArg h]
  rfl

theorem anomaliesOf_detect (D : Detector) (data : List JSNum) (statName : String)
    (tpArg : Option (List JSNum)) (h : D.windowSize ≤ data.length) :
    (D.detectTrendChanges data statName tpArg).anomaliesOf =
      D.allAnomaliesOf data (Detector.timePeriodsDefault data tpArg) := by
  rw [detect_success_eq D data statName tpArg h]
  rfl

theorem anomalyDetailsOf_detect (D : Detector) (data : List JSNum) (statName : String)
    (tpArg : Option (List JSNum)) (h : D.windowSize ≤ data.length) :
    (D.detectTrendChanges data statName tpArg).anomalyDetailsOf =
      D.classifyAnomalies data
        (D.calculateRollingSlopes data (Detector.timePeriodsDefault data tpArg))
        (D.allAnomaliesOf data (Detector.timePeriodsDefault data tpArg))
        (Detector.timePeriodsDefault data tpArg)
        (Detector.calculateZScores data) := by
  rw [detect_success_eq D data statName tpArg h]
  rfl

end DetectAccessors

section ClassifySpec

theorem jsIndex_replicate {n i : ℕ} (x : JSNum) (h : i < n) :
    jsIndex (List.replicate n x) i = x := by
  simp [jsIndex, List.getD_eq_getElem?_getD, List.getElem?_replicate, h]

/-- Anatomy of a classified detail: it stems from an in-range index of
the given list, and its `types` field is exactly the concatenation of
the re-evaluated detector criteria. -/
theorem classify_types_spec (D : Detector) (data slopes : List JSNum) (idxs : List ℕ)
    (tp zS : List JSNum) (detail : AnomalyDetail)
    (h : detail ∈ D.classifyAnomalies data slopes idxs tp zS) :
    ∃ idx, idx ∈ idxs ∧ idx < data.length ∧ detail.index = idx ∧
      detail.types =
        (if JSNum.gt (jsIndex zS idx) (JSNum.num D.sensitivity) then
          ["statistical_outlier"] else []) ++
        (if 0 < idx ∧ idx < slopes.length then
          (if JSNum.gt (JSNum.abs (JSNum.sub (jsIndex slopes idx)
              (jsIndex slopes (idx - 1)))) (JSNum.num D.minChangeMagnitude) then
            ["trend_change"] else []) ++
          (if JSNum.lt (JSNum.mul (jsIndex slopes (idx - 1)) (jsIndex slopes idx))
              (JSNum.num 0) then
            ["trend_reversal"] else [])
         else []) ++
        (if 0 < idx then
          (if JSNum.gt (JSNum.abs (JSNum.sub (jsIndex data idx)
              (jsIndex data (idx - 1))))
              (JSNum.mul (Detector.standardDeviation (Detector.differencesOf data))
                (JSNum.num D.sensitivity)) then
            ["sudden_change"] else [])
         else []) := by
  unfold Detector.classifyAnomalies at h
  rw [List.filterMap_map] at h
  rcases List.mem_filterMap.mp h with ⟨idx, hidx, hsome⟩
  simp only [Function.comp, id] at hsome
  by_cases hlen : data.length ≤ idx
  · rw [if_pos hlen] at hsome
    exact absurd hsome (by simp)
  · rw [if_neg hlen] at hsome
    refine ⟨idx, hidx, by omega, ?_, ?_⟩
    · have := congrArg (fun o => (o.map AnomalyDetail.index).getD 0) hsome
      simpa using this.symm
    · have := congrArg (fun o => (o.map AnomalyDetail.types).getD []) hsome
      simpa using this.symm

end ClassifySpec

section ConstantSeries

theorem statisticalAnomalies_replicate_nan (D : Detector) (n : ℕ) :
    D.statisticalAnomalies (List.replicate n JSNum.nan) = [] := by
  unfold Detector.statisticalAnomalies
  have henum : (List.replicate n JSNum.nan).enum =
      (List.range' 0 n).map (fun i => (i, JSNum.nan)) := by
    simpa [List.enum] using enumFrom_replicate JSNum.nan n 0
  rw [henum, List.filter_map]
  have hfilt : ((fun p : ℕ × JSNum => decide
      (JSNum.gt p.2 (JSNum.num D.sensitivity))) ∘ (fun i => (i, JSNum.nan))) =
      fun _ => false := by
    funext i
    simp
  rw [hfilt]
  simp

/-- C1 (amended): for every constant series of length at least
`windowSize`, the standard deviation is exactly 0 and the JS `0/0` makes
every z-score entry `NaN` (not 0); no index is flagged as a statistical
outlier — neither in the `statisticalAnomalies` fusion input nor in any
classified detail's `types`. -/
theorem claim_C1_constant_series (D : Detector) (n : ℕ) (c : ℝ) (statName : String)
    (tpArg : Option (List JSNum)) (hn : 0 < n) (hW : D.windowSize ≤ n) :
    (D.detectTrendChanges (List.replicate n (JSNum.num c)) statName tpArg).zScoresOf =
        List.replicate n JSNum.nan ∧
      D.statisticalAnomalies
        (Detector.calculateZScores (List.replicate n (JSNum.num c))) = [] ∧
      ((D.detectTrendChanges (List.replicate n (JSNum.num c)) statName
          tpArg).anomalyDetailsOf.all
        (fun d => decide ("statistical_outlier" ∉ d.types))) = true := by
  have h' : D.windowSize ≤ (List.replicate n (JSNum.num c)).length := by
    simpa using hW
  refine ⟨?_, ?_, ?_⟩
  · rw [zScoresOf_detect _ _ _ _ h', calculateZScores_replicate c hn]
  · rw [calculateZScores_replicate c hn]
    exact statisticalAnomalies_replicate_nan D n
  · rw [anomalyDetailsOf_detect _ _ _ _ h', List.all_eq_true]
    intro d hd
    rw [decide_eq_true_eq]
    rcases classify_types_spec _ _ _ _ _ _ _ hd with ⟨idx, _, hlt, _, htypes⟩
    have hz : jsIndex (Detector.calculateZScores (List.replicate n (JSNum.num c))) idx =
        JSNum.nan := by
      rw [calculateZScores_replicate c hn]
      exact jsIndex_replicate _ (by simpa using hlt)
    rw [htypes, hz, if_neg (JSNum.not_gt_nan _), List.nil_append]
    intro hmem
    rcases List.mem_append.mp hmem with hmem | hmem
    · split_ifs at hmem <;> simp_all
    · split_ifs at hmem <;> simp_all

theorem claim_C1_witness :
    (defaultDetector.detectTrendChanges (List.replicate 6 (JSNum.num 5))
        "Rushes per drive" none).zScoresOf = List.replicate 6 JSNum.nan ∧
      defaultDetector.statisticalAnomalies
        (Detector.calculateZScores (List.replicate 6 (JSNum.num 5))) = [] ∧
      ((defaultDetector.detectTrendChanges (List.replicate 6 (JSNum.num 5))
          "Rushes per drive" none).anomalyDetailsOf.all
        (fun d => decide ("statistical_outlier" ∉ d.types))) = true :=
  claim_C1_constant_series defaultDetector 6 5 "Rushes per drive" none
    (by norm_num) (by norm_num [defaultDetector])

/-- C1 counterexample: on the constant series of six 5s the first
z-score entry is `NaN`, not 0 as claimed. -/
theorem claim_C1_counterexample :
    (defaultDetector.detectTrendChanges (List.replicate 6 (JSNum.num 5))
      "Rushes per drive" none).zScoresOf.getD 0 JSNum.nan ≠ JSNum.num 0 := by
  rw [zScoresOf_detect _ _ _ _ (by simp [defaultDetector]),
    calculateZScores_replicate 5 (by norm_num)]
  have : (List.replicate 6 JSNum.nan).getD 0 JSNum.nan = JSNum.nan := by
    simp [List.getD_eq_getElem?_getD, List.getElem?_replicate]
  rw [this]
  intro h
  exact JSNum.noConfusion h

end ConstantSeries

theorem JSNum.mul_comm (a b : JSNum) : JSNum.mul a b = JSNum.mul b a := by
  cases a <;> cases b <;> (simp [JSNum.mul]; try ring)

section DetectorMembership

theorem jsIndex_of_getElem? {l : List JSNum} {i : ℕ} {x : JSNum}
    (h : l[i]? = some x) : jsIndex l i = x := by
  simp [jsIndex, List.getD_eq_getElem?_getD, h]

theorem mem_statisticalAnomalies {D : Detector} {zS : List JSNum} {idx : ℕ}
    (h : idx ∈ D.statisticalAnomalies zS) :
    JSNum.gt (jsIndex zS idx) (JSNum.num D.sensitivity) ∧ idx < zS.length := by
  unfold Detector.statisticalAnomalies at h
  rcases List.mem_map.mp h with ⟨⟨i, z⟩, hp, rfl⟩
  rcases List.mem_filter.mp hp with ⟨hmem, hdec⟩
  rw [decide_eq_true_eq] at hdec
  have hget := List.mk_mem_enum_iff_getElem?.mp hmem
  have hlt : i < zS.length := by
    by_contra hge
    rw [List.getElem?_eq_none (by omega)] at hget
    exact Option.noConfusion hget
  exact ⟨by rwa [jsIndex_of_getElem? hget], hlt⟩

theorem mem_detectSlopeChanges {D : Detector} {slopes : List JSNum} {idx : ℕ}
    (h : idx ∈ D.detectSlopeChanges slopes) :
    0 < idx ∧ idx < slopes.length ∧
      (JSNum.lt (JSNum.mul (jsIndex slopes idx) (jsIndex slopes (idx - 1)))
          (JSNum.num 0) ∨
        JSNum.gt (JSNum.abs (JSNum.sub (jsIndex slopes idx)
          (jsIndex slopes (idx - 1)))) (JSNum.num D.minChangeMagnitude)) := by
  unfold Detector.detectSlopeChanges at h
  by_cases hlen : slopes.length < 2
  · rw [if_pos hlen] at h
    exact absurd h (List.not_mem_nil idx)
  · rw [if_neg hlen] at h
    rcases List.mem_filter.mp h with ⟨hmem, hdec⟩
    rw [decide_eq_true_eq] at hdec
    have hr := List.mem_range'_1.mp hmem
    exact ⟨by omega, by omega, hdec⟩

theorem mem_detectSuddenChanges {D : Detector} {data : List JSNum} {idx : ℕ}
    (h : idx ∈ D.detectSuddenChanges data) :
    ∃ i, idx = i + 1 ∧ i + 1 < data.length ∧
      JSNum.gt (JSNum.abs (JSNum.sub (jsIndex data (i + 1)) (jsIndex data i)))
        (JSNum.mul (Detector.standardDeviation (Detector.differencesOf data))
          (JSNum.num D.sensitivity)) := by
  unfold Detector.detectSuddenChanges at h
  by_cases hlen : data.length < 2
  · rw [if_pos hlen] at h
    exact absurd h (List.not_mem_nil idx)
  · rw [if_neg hlen] at h
    rcases List.mem_map.mp h with ⟨⟨i, diff⟩, hp, rfl⟩
    rcases List.mem_filter.mp hp with ⟨hmem, hdec⟩
    rw [decide_eq_true_eq] at hdec
    have hget := List.mk_mem_enum_iff_getElem?.mp hmem
    have hlt : i < (Detector.differencesOf data).length := by
      by_contra hge
      rw [List.getElem?_eq_none (by omega)] at hget
      exact Option.noConfusion hget
    have hlen' : i + 1 < data.length := by
      rw [length_differencesOf] at hlt
      omega
    refine ⟨i, rfl, hlen', ?_⟩
    have hdiff : diff = JSNum.sub (jsIndex data (i + 1)) (jsIndex data i) := by
      unfold Detector.differencesOf at hget
      rcases List.getElem?_zipWith_eq_some.mp hget with ⟨a, b, ha, hb, hab⟩
      rw [List.getElem?_drop] at ha
      rw [jsIndex_of_getElem? (by simpa [Nat.add_comm] using ha),
        jsIndex_of_getElem? hb]
      exact hab.symm
    rwa [hdiff] at hdec

end DetectorMembership

/-- C9: in every successful detection, every classified anomaly detail
re-confirms at least the detector criterion that put its index into the
fused anomaly set, so its `types` set is never empty. -/
theorem claim_C9_types_nonempty (D : Detector) (data : List JSNum) (statName : String)
    (tpArg : Option (List JSNum)) (h : D.windowSize ≤ data.length) :
    ((D.detectTrendChanges data statName tpArg).anomalyDetailsOf.all
      (fun d => decide (d.types ≠ []))) = true := by
  rw [anomalyDetailsOf_detect _ _ _ _ h, List.all_eq_true]
  intro d hd
  rw [decide_eq_true_eq]
  rcases classify_types_spec _ _ _ _ _ _ _ hd with ⟨idx, hin, hlt, _, htypes⟩
  unfold Detector.allAnomaliesOf at hin
  rw [jsSortNat_mem, jsSetDedup_mem, List.append_assoc, List.mem_append] at hin
  rcases hin with hstat | hin
  · have hz := (mem_statisticalAnomalies hstat).1
    rw [htypes, if_pos hz]
    simp [List.append_eq_nil]
  · rcases List.mem_append.mp hin with htrend | hsud
    · obtain ⟨hpos, hlt_s, hcond⟩ := mem_detectSlopeChanges htrend
      have hmid : (if 0 < idx ∧ idx <
          (D.calculateRollingSlopes data (Detector.timePeriodsDefault data
            tpArg)).length then
          (if JSNum.gt (JSNum.abs (JSNum.sub (jsIndex (D.calculateRollingSlopes data
              (Detector.timePeriodsDefault data tpArg)) idx)
              (jsIndex (D.calculateRollingSlopes data
                (Detector.timePeriodsDefault data tpArg)) (idx - 1))))
              (JSNum.num D.minChangeMagnitude) then
            ["trend_change"] else []) ++
          (if JSNum.lt (JSNum.mul (jsIndex (D.calculateRollingSlopes data
              (Detector.timePeriodsDefault data tpArg)) (idx - 1))
              (jsIndex (D.calculateRollingSlopes data
                (Detector.timePeriodsDefault data tpArg)) idx))
              (JSNum.num 0) then
            ["trend_reversal"] else [])
         else []) ≠ [] := by
        rw [if_pos ⟨hpos, hlt_s⟩]
        rcases hcond with hsig | hmag
        · rw [JSNum.mul_comm] at hsig
          rw [if_pos hsig]
          simp [List.append_eq_nil]
        · rw [if_pos hmag]
          simp [List.append_eq_nil]
      rw [htypes]
      intro hnil
      simp only [List.append_eq_nil] at hnil
      exact hmid (by tauto)
    · rcases mem_detectSuddenChanges hsud with ⟨i, rfl, _, hgt⟩
      rw [htypes]
      simp only [Nat.add_sub_cancel]
      rw [if_pos (by omega : 0 < i + 1), if_pos hgt]
      simp [List.append_eq_nil]

theorem claim_C9_witness :
    ((defaultDetector.detectTrendChanges (List.replicate 6 (JSNum.num 5))
        "Rushes per drive" none).anomalyDetailsOf.all
      (fun d => decide (d.types ≠ []))) = true :=
  claim_C9_types_nonempty defaultDetector (List.replicate 6 (JSNum.num 5))
    "Rushes per drive" none (by norm_num [defaultDetector])

/-- C2 (amended): for every series at least `windowSize` long, the fused
anomaly list is duplicate-free, a subset of `[0, N)`, and sorted in the
order actually produced by JS `Array.prototype.sort()` with no
comparator — lexicographic comparison of the decimal string
representations (which agrees with numeric order only while all indices
have equally many digits, e.g. all below 10). -/
theorem claim_C2_anomaly_list (D : Detector) (data : List JSNum) (statName : String)
    (h : D.windowSize ≤ data.length) :
    (D.detectTrendChanges data statName none).anomaliesOf.Nodup ∧
      (D.detectTrendChanges data statName none).anomaliesOf.Sorted jsStrLe ∧
      ((D.detectTrendChanges data statName none).anomaliesOf.all
        (fun x => decide (x < data.length))) = true := by
  rw [anomaliesOf_detect _ _ _ _ h]
  unfold Detector.allAnomaliesOf
  refine ⟨jsSortNat_nodup (jsSetDedup_nodup _), jsSortNat_sorted _, ?_⟩
  rw [List.all_eq_true]
  intro x hx
  rw [decide_eq_true_eq]
  rw [jsSortNat_mem, jsSetDedup_mem, List.append_assoc, List.mem_append] at hx
  rcases hx with hstat | hx
  · have := (mem_statisticalAnomalies hstat).2
    simpa using this
  · rcases List.mem_append.mp hx with htrend | hsud
    · have := (mem_detectSlopeChanges htrend).2.1
      simpa using this
    · rcases mem_detectSuddenChanges hsud with ⟨i, rfl, hi, _⟩
      exact hi

theorem claim_C2_witness :
    (defaultDetector.detectTrendChanges (List.map JSNum.num [0, 1, 2, 3, 6, 10])
        "Rushes per drive" none).anomaliesOf.Nodup ∧
      (defaultDetector.detectTrendChanges (List.map JSNum.num [0, 1, 2, 3, 6, 10])
        "Rushes per drive" none).anomaliesOf.Sorted jsStrLe ∧
      ((defaultDetector.detectTrendChanges (List.map JSNum.num [0, 1, 2, 3, 6, 10])
        "Rushes per drive" none).anomaliesOf.all
        (fun x => decide (x < (List.map JSNum.num [0, 1, 2, 3, 6, 10]).length))) =
        true :=
  claim_C2_anomaly_list defaultDetector (List.map JSNum.num [0, 1, 2, 3, 6, 10])
    "Rushes per drive" (by simp [defaultDetector])

section SqrtComparisons

theorem mem_of_getElem?_eq {α : Type} {l : List α} {i : ℕ} {x : α}
    (h : l[i]? = some x) : x ∈ l := by
  have hi : i < l.length := by
    by_contra hge
    rw [List.getElem?_eq_none (by omega)] at h
    exact Option.noConfusion h
  rw [List.getElem?_eq_getElem hi] at h
  rw [← Option.some_inj.mp h]
  exact List.getElem_mem hi

theorem snd_mem_of_mem_enum {α : Type} {l : List α} {p : ℕ × α} (h : p ∈ l.enum) :
    p.2 ∈ l := by
  obtain ⟨i, x⟩ := p
  exact mem_of_getElem?_eq (List.mk_mem_enum_iff_getElem?.mp h)

theorem not_lt_abs_div_sqrt (x q s : ℝ) (hq : 0 < q) (hs : 0 ≤ s)
    (h : x ^ 2 ≤ s ^ 2 * q) : ¬ (s < |x / Real.sqrt q|) := by
  rw [abs_div, abs_of_pos (Real.sqrt_pos.mpr hq)]
  intro hlt
  have h1 : s * Real.sqrt q < |x| := (lt_div_iff₀ (Real.sqrt_pos.mpr hq)).mp hlt
  have h2 : (s * Real.sqrt q) ^ 2 < |x| ^ 2 :=
    pow_lt_pow_left₀ h1 (mul_nonneg hs (Real.sqrt_nonneg q)) (by norm_num)
  rw [mul_pow, Real.sq_sqrt hq.le, sq_abs] at h2
  nlinarith

theorem not_sqrt_mul_lt_abs (d q s : ℝ) (hq : 0 ≤ q) (hs : 0 ≤ s)
    (h : d ^ 2 ≤ q * s ^ 2) : ¬ (Real.sqrt q * s < |d|) := by
  intro hlt
  have h1 : 0 ≤ Real.sqrt q * s := mul_nonneg (Real.sqrt_nonneg q) hs
  have h2 : (Real.sqrt q * s) ^ 2 < |d| ^ 2 := pow_lt_pow_left₀ hlt h1 (by norm_num)
  rw [mul_pow, Real.sq_sqrt hq, sq_abs] at h2
  nlinarith

theorem sqrt_mul_lt_abs (d q s : ℝ) (hq : 0 ≤ q)
    (h : q * s ^ 2 < d ^ 2) : Real.sqrt q * s < |d| := by
  by_contra hle
  push_neg at hle
  have h2 : |d| ^ 2 ≤ (Real.sqrt q * s) ^ 2 :=
    pow_le_pow_left₀ (abs_nonneg d) hle 2
  rw [mul_pow, Real.sq_sqrt hq, sq_abs] at h2
  nlinarith

end SqrtComparisons

section DetectorNilLemmas

theorem statisticalAnomalies_map_num_nil (D : Detector) (l : List ℝ) (h : l ≠ [])
    (hq : varExpr l ≠ 0) (hs : 0 ≤ D.sensitivity)
    (hall : ∀ v ∈ l, (v - l.sum / l.length) ^ 2 ≤ D.sensitivity ^ 2 * varExpr l) :
    D.statisticalAnomalies (Detector.calculateZScores (l.map JSNum.num)) = [] := by
  rw [calculateZScores_map_num l h hq]
  unfold Detector.statisticalAnomalies
  rw [List.map_eq_nil_iff]
  apply List.filter_eq_nil_iff.mpr
  intro p hp
  have hmem := snd_mem_of_mem_enum hp
  rcases List.mem_map.mp hmem with ⟨v, hv, hpv⟩
  rw [Bool.not_eq_true, decide_eq_false_iff_not, ← hpv]
  simp only [JSNum.gt_num_num]
  exact not_lt_abs_div_sqrt _ _ _
    (lt_of_le_of_ne (varExpr_nonneg l) (Ne.symm hq)) hs (hall v hv)

theorem detectSuddenChanges_map_num_nil (D : Detector) (l : List ℝ)
    (h2 : 2 ≤ l.length) (hs : 0 ≤ D.sensitivity)
    (hall : ∀ d ∈ List.zipWith (fun a b => a - b) (l.drop 1) l,
      d ^ 2 ≤ varExpr (List.zipWith (fun a b => a - b) (l.drop 1) l) *
        D.sensitivity ^ 2) :
    D.detectSuddenChanges (l.map JSNum.num) = [] := by
  have hne : List.zipWith (fun a b => a - b) (l.drop 1) l ≠ [] := by
    apply List.ne_nil_of_length_pos
    rw [List.length_zipWith]
    simp
    omega
  have hNlt : ¬ ((l.map JSNum.num).length < 2) := by simp; omega
  simp only [Detector.detectSuddenChanges, if_neg hNlt, differencesOf_map_num,
    standardDeviation_map_num _ hne]
  rw [List.map_eq_nil_iff]
  apply List.filter_eq_nil_iff.mpr
  intro p hp
  have hmem := snd_mem_of_mem_enum hp
  rcases List.mem_map.mp hmem with ⟨d, hd, hpd⟩
  rw [Bool.not_eq_true, decide_eq_false_iff_not, ← hpd]
  simp only [JSNum.mul_num_num, JSNum.abs_num, JSNum.gt_num_num]
  exact not_sqrt_mul_lt_abs _ _ _
    (varExpr_nonneg _) hs (hall d hd)

end DetectorNilLemmas

section ConcreteEvaluation

theorem linearRegression_eval (xs ys : List ℝ) (A B r : ℝ)
    (hA : ((xs.length : ℝ) * (List.zipWith (fun u v => u * v) xs ys).sum -
      xs.sum * ys.sum) = A)
    (hB : ((xs.length : ℝ) * (xs.map (fun t => t * t)).sum - xs.sum * xs.sum) = B)
    (hBne : B ≠ 0) (hr : A / B = r) (hlen : xs.length ≤ ys.length) :
    Detector.linearRegression (xs.map JSNum.num) (ys.map JSNum.num) = JSNum.num r := by
  rw [linearRegression_map_num _ _ hlen, hA, hB, JSNum.div_num_num_of_ne _ hBne, hr]

theorem timePeriodsDefault_six :
    Detector.timePeriodsDefault (List.map JSNum.num [1, 1, 1, 3, 0, 0]) none =
      List.map JSNum.num [1, 2, 3, 4, 5, 6] := by
  simp only [Detector.timePeriodsDefault, List.length_map, List.length_cons,
    List.length_nil]
  have hr : List.range 6 = [0, 1, 2, 3, 4, 5] := rfl
  rw [hr]
  simp only [List.map_cons, List.map_nil]
  norm_num

theorem slopes_c10 :
    defaultDetector.calculateRollingSlopes (List.map JSNum.num [1, 1, 1, 3, 0, 0])
      (List.map JSNum.num [1, 2, 3, 4, 5, 6]) =
    [JSNum.num 0, JSNum.num 0, JSNum.num 0, JSNum.num (3 / 5), JSNum.num 0,
      JSNum.num (-6 / 35)] := by
  have h1 := linearRegression_eval [1, 2] [1, 1] 0 1 0 (by norm_num) (by norm_num)
    (by norm_num) (by norm_num) (by norm_num)
  have h2 := linearRegression_eval [1, 2, 3] [1, 1, 1] 0 6 0 (by norm_num)
    (by norm_num) (by norm_num) (by norm_num) (by norm_num)
  have h3 := linearRegression_eval [1, 2, 3, 4] [1, 1, 1, 3] 12 20 (3 / 5)
    (by norm_num) (by norm_num) (by norm_num) (by norm_num) (by norm_num)
  have h4 := linearRegression_eval [1, 2, 3, 4, 5] [1, 1, 1, 3, 0] 0 50 0
    (by norm_num) (by norm_num) (by norm_num) (by norm_num) (by norm_num)
  have h5 := linearRegression_eval [1, 2, 3, 4, 5, 6] [1, 1, 1, 3, 0, 0] (-18) 105
    (-6 / 35) (by norm_num) (by norm_num) (by norm_num) (by norm_num) (by norm_num)
  simp only [List.map_cons, List.map_nil] at h1 h2 h3 h4 h5
  have hr6 : List.range 6 = [0, 1, 2, 3, 4, 5] := rfl
  simp only [Detector.calculateRollingSlopes, List.length_map, List.length_cons,
    List.length_nil, hr6, List.map_cons, List.map_nil, defaultDetector]
  norm_num [jsSlice, h1, h2, h3, h4, h5]

theorem trend_c10 :
    defaultDetector.detectSlopeChanges
      [JSNum.num 0, JSNum.num 0, JSNum.num 0, JSNum.num (3 / 5), JSNum.num 0,
        JSNum.num (-6 / 35)] = [3, 4] := by
  unfold Detector.detectSlopeChanges
  rw [if_neg (by norm_num)]
  have hr : List.range' 1 5 = [1, 2, 3, 4, 5] := rfl
  norm_num [hr, List.filter_cons, decide_eq_true_eq, jsIndex,
    List.getD_eq_getElem?_getD, defaultDetector, abs_of_pos, abs_of_nonneg]

theorem stat_c10 :
    defaultDetector.statisticalAnomalies
      (Detector.calculateZScores (List.map JSNum.num [1, 1, 1, 3, 0, 0])) = [] := by
  apply statisticalAnomalies_map_num_nil
  · simp
  · norm_num [varExpr]
  · norm_num [defaultDetector]
  · intro v hv
    simp at hv
    rcases hv with rfl | rfl | rfl <;> norm_num [varExpr, defaultDetector]

theorem sudden_c10 :
    defaultDetector.detectSuddenChanges (List.map JSNum.num [1, 1, 1, 3, 0, 0]) =
      [] := by
  apply detectSuddenChanges_map_num_nil
  · norm_num
  · norm_num [defaultDetector]
  · intro d hd
    norm_num at hd
    rcases hd with rfl | rfl | rfl | rfl <;> norm_num [varExpr, defaultDetector]

theorem anomalies_c10 :
    defaultDetector.allAnomaliesOf (List.map JSNum.num [1, 1, 1, 3, 0, 0])
      (List.map JSNum.num [1, 2, 3, 4, 5, 6]) = [3, 4] := by
  unfold Detector.allAnomaliesOf
  rw [stat_c10, sudden_c10, slopes_c10, trend_c10]
  simp [jsSetDedup]
  decide

end ConcreteEvaluation

theorem zscores_c10 :
    Detector.calculateZScores (List.map JSNum.num [1, 1, 1, 3, 0, 0]) =
      List.map JSNum.num [0, 0, 0, 2, 1, 1] := by
  rw [calculateZScores_map_num _ (by simp) (by norm_num [varExpr])]
  have hvar : varExpr [(1 : ℝ), 1, 1, 3, 0, 0] = 1 := by norm_num [varExpr]
  simp only [hvar, Real.sqrt_one]
  norm_num [abs_of_nonneg, abs_of_nonpos]

theorem diffstd_c10 :
    Detector.standardDeviation
      (Detector.differencesOf (List.map JSNum.num [1, 1, 1, 3, 0, 0])) =
      JSNum.num (8 / 5) := by
  have hd : Detector.differencesOf (List.map JSNum.num [1, 1, 1, 3, 0, 0]) =
      List.map JSNum.num [0, 0, 2, -3, 0] := by
    rw [differencesOf_map_num]
    exact congrArg (List.map JSNum.num) (by norm_num)
  rw [hd, standardDeviation_map_num _ (by simp)]
  have hvar : varExpr [(0 : ℝ), 0, 2, -3, 0] = 64 / 25 := by norm_num [varExpr]
  rw [hvar, show Real.sqrt (64 / 25) = 8 / 5 by
    rw [show (64 / 25 : ℝ) = (8 / 5) ^ 2 by norm_num]
    exact Real.sqrt_sq (by norm_num)]

/-- The two classified details of the series `[1,1,1,3,0,0]`. -/
noncomputable def detailC10a : AnomalyDetail :=
  { index := 3, timePeriod := JSNum.num 4, value := JSNum.num 3,
    types := ["trend_change"], description := "Trend change: increasing trend" }

/-- The second classified detail of the series `[1,1,1,3,0,0]`. -/
noncomputable def detailC10b : AnomalyDetail :=
  { index := 4, timePeriod := JSNum.num 5, value := JSNum.num 0,
    types := ["trend_change"], description := "Trend change: decreasing trend" }

theorem details_c10 :
    defaultDetector.classifyAnomalies (List.map JSNum.num [1, 1, 1, 3, 0, 0])
      [JSNum.num 0, JSNum.num 0, JSNum.num 0, JSNum.num (3 / 5), JSNum.num 0,
        JSNum.num (-6 / 35)]
      [3, 4] (List.map JSNum.num [1, 2, 3, 4, 5, 6])
      (List.map JSNum.num [0, 0, 0, 2, 1, 1]) = [detailC10a, detailC10b] := by
  unfold Detector.classifyAnomalies detailC10a detailC10b
  simp only [diffstd_c10]
  norm_num [jsIndex, List.getD_eq_getElem?_getD, defaultDetector, abs_of_pos,
    abs_of_nonneg, abs_of_nonpos]
  rfl

/-- C10: there is a successful detection with a non-empty anomaly list
whose narrative is the empty sentence list: on `[1,1,1,3,0,0]` every
anomaly is a pure trend_change (no reversal, sudden change or outlier)
and the rolling slope at the most recent trend anomaly is 0, whose
absolute value does not exceed 0.2, so no sentence is generated at all —
callers cannot assume anomalies imply at least one narrative sentence. -/
theorem claim_C10_empty_narrative :
    (defaultDetector.detectTrendChanges (List.map JSNum.num [1, 1, 1, 3, 0, 0])
        "rushing" none).anomaliesOf ≠ [] ∧
      Detector.generateNarrative
        (defaultDetector.detectTrendChanges (List.map JSNum.num [1, 1, 1, 3, 0, 0])
          "rushing" none) = NarrativeResult.list [] := by
  have hsucc := detect_success_eq defaultDetector (List.map JSNum.num [1, 1, 1, 3, 0, 0])
    "rushing" none (by simp [defaultDetector])
  simp only [timePeriodsDefault_six, slopes_c10, zscores_c10, anomalies_c10,
    details_c10] at hsucc
  constructor
  · rw [hsucc]
    simp [DetectionResult.anomaliesOf]
  · rw [hsucc]
    have hconv : Detector.convertStatName "rushing" = "rushing" := by decide
    have hf1 : List.filter (fun a => a.types.contains "trend_change")
        [detailC10a, detailC10b] = [detailC10a, detailC10b] := by rfl
    have hf2 : List.filter (fun a => a.types.contains "trend_reversal")
        [detailC10a, detailC10b] = [] := by rfl
    have hf3 : List.filter (fun a => a.types.contains "sudden_change")
        [detailC10a, detailC10b] = [] := by rfl
    have hf4 : List.filter (fun a => a.types.contains "statistical_outlier")
        [detailC10a, detailC10b] = [] := by rfl
    have hsort : Detector.sortByIndex ([detailC10a, detailC10b] ++ []) =
        [detailC10a, detailC10b] := by rfl
    have hlast : ([detailC10a, detailC10b] : List AnomalyDetail).getLast? =
        some detailC10b := by rfl
    have hidx : jsIndex [JSNum.num 0, JSNum.num 0, JSNum.num 0, JSNum.num (3 / 5),
        JSNum.num 0, JSNum.num (-6 / 35)] detailC10b.index = JSNum.num 0 := by rfl
    have n1 : ¬ JSNum.gt (JSNum.num 0) (JSNum.num 0.5) := by
      rw [JSNum.gt_num_num]
      norm_num
    have n2 : ¬ JSNum.lt (JSNum.num 0) (JSNum.num (-0.5)) := by
      rw [JSNum.lt_num_num]
      norm_num
    have n3 : ¬ JSNum.gt (JSNum.abs (JSNum.num 0)) (JSNum.num 0.2) := by
      rw [JSNum.abs_num, JSNum.gt_num_num]
      norm_num
    simp only [Detector.generateNarrative, hconv, List.length_cons, List.length_nil,
      hf1, hf2, hf3, hf4, Detector.generateTrendStatements, hsort, hlast,
      List.any_nil, hidx, n1, n2, n3]
    norm_num

section CounterexampleC2

theorem timePeriodsDefault_eleven :
    Detector.timePeriodsDefault
      (List.map JSNum.num [0, 2, 0, 2, 0, 2, 0, 2, 0, 2, 0]) none =
      List.map JSNum.num [1, 2, 3, 4, 5, 6, 7, 8, 9, 10, 11] := by
  simp only [Detector.timePeriodsDefault, List.length_map, List.length_cons,
    List.length_nil]
  have hr : List.range 11 = [0, 1, 2, 3, 4, 5, 6, 7, 8, 9, 10] := rfl
  rw [hr]
  simp only [List.map_cons, List.map_nil]
  norm_num

theorem stat_c2 :
    defaultDetector.statisticalAnomalies
      (Detector.calculateZScores
        (List.map JSNum.num [0, 2, 0, 2, 0, 2, 0, 2, 0, 2, 0])) = [] := by
  apply statisticalAnomalies_map_num_nil
  · simp
  · norm_num [varExpr]
  · norm_num [defaultDetector]
  · intro v hv
    simp at hv
    rcases hv with rfl | rfl | rfl | rfl | rfl | rfl | rfl | rfl | rfl | rfl | rfl <;>
      norm_num [varExpr, defaultDetector]

theorem sudden_c2 :
    defaultDetector.detectSuddenChanges
      (List.map JSNum.num [0, 2, 0, 2, 0, 2, 0, 2, 0, 2, 0]) = [] := by
  apply detectSuddenChanges_map_num_nil
  · norm_num
  · norm_num [defaultDetector]
  · intro d hd
    norm_num at hd
    rcases hd with rfl | rfl | rfl | rfl | rfl | rfl | rfl | rfl | rfl | rfl <;>
      norm_num [varExpr, defaultDetector]

theorem slopes_c2 :
    defaultDetector.calculateRollingSlopes
      (List.map JSNum.num [0, 2, 0, 2, 0, 2, 0, 2, 0, 2, 0])
      (List.map JSNum.num [1, 2, 3, 4, 5, 6, 7, 8, 9, 10, 11]) =
    [JSNum.num 0, JSNum.num 2, JSNum.num 0, JSNum.num (2 / 5), JSNum.num 0,
      JSNum.num (6 / 35), JSNum.num (-6 / 35), JSNum.num (6 / 35),
      JSNum.num (-6 / 35), JSNum.num (6 / 35), JSNum.num (-6 / 35)] := by
  have h1 := linearRegression_eval [1, 2] [0, 2] 2 1 2 (by norm_num) (by norm_num)
    (by norm_num) (by norm_num) (by norm_num)
  have h2 := linearRegression_eval [1, 2, 3] [0, 2, 0] 0 6 0 (by norm_num)
    (by norm_num) (by norm_num) (by norm_num) (by norm_num)
  have h3 := linearRegression_eval [1, 2, 3, 4] [0, 2, 0, 2] 8 20 (2 / 5)
    (by norm_num) (by norm_num) (by norm_num) (by norm_num) (by norm_num)
  have h4 := linearRegression_eval [1, 2, 3, 4, 5] [0, 2, 0, 2, 0] 0 50 0
    (by norm_num) (by norm_num) (by norm_num) (by norm_num) (by norm_num)
  have h5 := linearRegression_eval [1, 2, 3, 4, 5, 6] [0, 2, 0, 2, 0, 2] 18 105
    (6 / 35) (by norm_num) (by norm_num) (by norm_num) (by norm_num) (by norm_num)
  have h6 := linearRegression_eval [2, 3, 4, 5, 6, 7] [2, 0, 2, 0, 2, 0] (-18) 105
    (-6 / 35) (by norm_num) (by norm_num) (by norm_num) (by norm_num) (by norm_num)
  have h7 := linearRegression_eval [3, 4, 5, 6, 7, 8] [0, 2, 0, 2, 0, 2] 18 105
    (6 / 35) (by norm_num) (by norm_num) (by norm_num) (by norm_num) (by norm_num)
  have h8 := linearRegression_eval [4, 5, 6, 7, 8, 9] [2, 0, 2, 0, 2, 0] (-18) 105
    (-6 / 35) (by norm_num) (by norm_num) (by norm_num) (by norm_num) (by norm_num)
  have h9 := linearRegression_eval [5, 6, 7, 8, 9, 10] [0, 2, 0, 2, 0, 2] 18 105
    (6 / 35) (by norm_num) (by norm_num) (by norm_num) (by norm_num) (by norm_num)
  have h10 := linearRegression_eval [6, 7, 8, 9, 10, 11] [2, 0, 2, 0, 2, 0] (-18) 105
    (-6 / 35) (by norm_num) (by norm_num) (by norm_num) (by norm_num) (by norm_num)
  simp only [List.map_cons, List.map_nil] at h1 h2 h3 h4 h5 h6 h7 h8 h9 h10
  have hr11 : List.range 11 = [0, 1, 2, 3, 4, 5, 6, 7, 8, 9, 10] := rfl
  simp only [Detector.calculateRollingSlopes, List.length_map, List.length_cons,
    List.length_nil, hr11, List.map_cons, List.map_nil, defaultDetector]
  norm_num [jsSlice, h1, h2, h3, h4, h5, h6, h7, h8, h9, h10]

theorem trend_c2 :
    defaultDetector.detectSlopeChanges
      [JSNum.num 0, JSNum.num 2, JSNum.num 0, JSNum.num (2 / 5), JSNum.num 0,
        JSNum.num (6 / 35), JSNum.num (-6 / 35), JSNum.num (6 / 35),
        JSNum.num (-6 / 35), JSNum.num (6 / 35), JSNum.num (-6 / 35)] =
      [1, 2, 3, 4, 6, 7, 8, 9, 10] := by
  unfold Detector.detectSlopeChanges
  rw [if_neg (by norm_num)]
  have hr : List.range' 1 10 = [1, 2, 3, 4, 5, 6, 7, 8, 9, 10] := rfl
  norm_num [hr, List.filter_cons, decide_eq_true_eq, jsIndex,
    List.getD_eq_getElem?_getD, defaultDetector, abs_of_pos, abs_of_nonneg,
    abs_of_nonpos]

theorem anomalies_c2 :
    defaultDetector.allAnomaliesOf
      (List.map JSNum.num [0, 2, 0, 2, 0, 2, 0, 2, 0, 2, 0])
      (List.map JSNum.num [1, 2, 3, 4, 5, 6, 7, 8, 9, 10, 11]) =
      [1, 10, 2, 3, 4, 6, 7, 8, 9] := by
  unfold Detector.allAnomaliesOf
  rw [stat_c2, sudden_c2, slopes_c2, trend_c2]
  simp [jsSetDedup]
  decide

/-- C2 counterexample: on the alternating series of length 11 the fused
anomaly list is `[1, 10, 2, 3, 4, 6, 7, 8, 9]` — JS `.sort()` compares
indices as strings, so index 10 sorts before index 2 and the list is not
sorted ascending as numbers. -/
theorem claim_C2_counterexample :
    ¬ (defaultDetector.detectTrendChanges
        (List.map JSNum.num [0, 2, 0, 2, 0, 2, 0, 2, 0, 2, 0])
        "Rushes per drive" none).anomaliesOf.Sorted (· ≤ ·) := by
  rw [anomaliesOf_detect _ _ _ _ (by simp [defaultDetector]),
    timePeriodsDefault_eleven, anomalies_c2]
  decide

end CounterexampleC2
